import Mathlib

/-!
Verification of the cadence history-processing core specification against the
repository source.  Part 1 embeds the metrics scope tables
(src/unnamed/part_000, package metrics); part 2 embeds the resource container
(src/common/resource/resourceImpl.go); part 3 models the task-queue processing
core described by the spec (ack levels, retry scheduler, queue splitting,
shard fencing), whose implementation files are not part of the source tree.
-/

namespace Cadence

/-- scopeDefinition holds the tag definitions for a scope: the operation tag
plus optional additional tags (Go struct scopeDefinition). -/
structure scopeDefinition where
  operation : String
  tags : List (String × String) := []
deriving DecidableEq

-- Service indices (Go: const Common = iota; Frontend; History; Matching; Worker; NumServices)

def Common : Nat := 0

def Frontend : Nat := 1

def History : Nat := 2

def Matching : Nat := 3

def Worker : Nat := 4

def NumServices : Nat := 5

-- Common operation scopes (Go const block, iota from 0)
def PersistenceCreateShardScope : Nat := 0
def PersistenceGetShardScope : Nat := 1
def PersistenceUpdateShardScope : Nat := 2
def PersistenceCreateWorkflowExecutionScope : Nat := 3
def PersistenceGetWorkflowExecutionScope : Nat := 4
def PersistenceUpdateWorkflowExecutionScope : Nat := 5
def PersistenceConflictResolveWorkflowExecutionScope : Nat := 6
def PersistenceResetWorkflowExecutionScope : Nat := 7
def PersistenceDeleteWorkflowExecutionScope : Nat := 8
def PersistenceDeleteCurrentWorkflowExecutionScope : Nat := 9
def PersistenceGetCurrentExecutionScope : Nat := 10
def PersistenceIsWorkflowExecutionExistsScope : Nat := 11
def PersistenceListCurrentExecutionsScope : Nat := 12
def PersistenceListConcreteExecutionsScope : Nat := 13
def PersistenceGetTransferTasksScope : Nat := 14
def PersistenceCompleteTransferTaskScope : Nat := 15
def PersistenceRangeCompleteTransferTaskScope : Nat := 16
def PersistenceGetCrossClusterTasksScope : Nat := 17
def PersistenceCompleteCrossClusterTaskScope : Nat := 18
def PersistenceRangeCompleteCrossClusterTaskScope : Nat := 19
def PersistenceGetReplicationTasksScope : Nat := 20
def PersistenceCompleteReplicationTaskScope : Nat := 21
def PersistenceRangeCompleteReplicationTaskScope : Nat := 22
def PersistencePutReplicationTaskToDLQScope : Nat := 23
def PersistenceGetReplicationTasksFromDLQScope : Nat := 24
def PersistenceGetReplicationDLQSizeScope : Nat := 25
def PersistenceDeleteReplicationTaskFromDLQScope : Nat := 26
def PersistenceRangeDeleteReplicationTaskFromDLQScope : Nat := 27
def PersistenceCreateFailoverMarkerTasksScope : Nat := 28
def PersistenceGetTimerIndexTasksScope : Nat := 29
def PersistenceCompleteTimerTaskScope : Nat := 30
def PersistenceRangeCompleteTimerTaskScope : Nat := 31
def PersistenceCreateTaskScope : Nat := 32
def PersistenceGetTasksScope : Nat := 33
def PersistenceCompleteTaskScope : Nat := 34
def PersistenceCompleteTasksLessThanScope : Nat := 35
def PersistenceGetOrphanTasksScope : Nat := 36
def PersistenceLeaseTaskListScope : Nat := 37
def PersistenceUpdateTaskListScope : Nat := 38
def PersistenceListTaskListScope : Nat := 39
def PersistenceDeleteTaskListScope : Nat := 40
def PersistenceAppendHistoryEventsScope : Nat := 41
def PersistenceGetWorkflowExecutionHistoryScope : Nat := 42
def PersistenceDeleteWorkflowExecutionHistoryScope : Nat := 43
def PersistenceCreateDomainScope : Nat := 44
def PersistenceGetDomainScope : Nat := 45
def PersistenceUpdateDomainScope : Nat := 46
def PersistenceDeleteDomainScope : Nat := 47
def PersistenceDeleteDomainByNameScope : Nat := 48
def PersistenceListDomainScope : Nat := 49
def PersistenceGetMetadataScope : Nat := 50
def PersistenceRecordWorkflowExecutionStartedScope : Nat := 51
def PersistenceRecordWorkflowExecutionClosedScope : Nat := 52
def PersistenceRecordWorkflowExecutionUninitializedScope : Nat := 53
def PersistenceUpsertWorkflowExecutionScope : Nat := 54
def PersistenceListOpenWorkflowExecutionsScope : Nat := 55
def PersistenceListClosedWorkflowExecutionsScope : Nat := 56
def PersistenceListOpenWorkflowExecutionsByTypeScope : Nat := 57
def PersistenceListClosedWorkflowExecutionsByTypeScope : Nat := 58
def PersistenceListOpenWorkflowExecutionsByWorkflowIDScope : Nat := 59
def PersistenceListClosedWorkflowExecutionsByWorkflowIDScope : Nat := 60
def PersistenceListClosedWorkflowExecutionsByStatusScope : Nat := 61
def PersistenceGetClosedWorkflowExecutionScope : Nat := 62
def PersistenceVisibilityDeleteWorkflowExecutionScope : Nat := 63
def PersistenceListWorkflowExecutionsScope : Nat := 64
def PersistenceScanWorkflowExecutionsScope : Nat := 65
def PersistenceCountWorkflowExecutionsScope : Nat := 66
def PersistenceEnqueueMessageScope : Nat := 67
def PersistenceEnqueueMessageToDLQScope : Nat := 68
def PersistenceReadQueueMessagesScope : Nat := 69
def PersistenceReadQueueMessagesFromDLQScope : Nat := 70
def PersistenceDeleteQueueMessagesScope : Nat := 71
def PersistenceDeleteQueueMessageFromDLQScope : Nat := 72
def PersistenceRangeDeleteMessagesFromDLQScope : Nat := 73
def PersistenceUpdateAckLevelScope : Nat := 74
def PersistenceGetAckLevelScope : Nat := 75
def PersistenceUpdateDLQAckLevelScope : Nat := 76
def PersistenceGetDLQAckLevelScope : Nat := 77
def PersistenceGetDLQSizeScope : Nat := 78
def PersistenceFetchDynamicConfigScope : Nat := 79
def PersistenceUpdateDynamicConfigScope : Nat := 80
def HistoryClientStartWorkflowExecutionScope : Nat := 81
def HistoryClientDescribeHistoryHostScope : Nat := 82
def HistoryClientRemoveTaskScope : Nat := 83
def HistoryClientCloseShardScope : Nat := 84
def HistoryClientResetQueueScope : Nat := 85
def HistoryClientDescribeQueueScope : Nat := 86
def HistoryClientRecordActivityTaskHeartbeatScope : Nat := 87
def HistoryClientRespondDecisionTaskCompletedScope : Nat := 88
def HistoryClientRespondDecisionTaskFailedScope : Nat := 89
def HistoryClientRespondActivityTaskCompletedScope : Nat := 90
def HistoryClientRespondActivityTaskFailedScope : Nat := 91
def HistoryClientRespondActivityTaskCanceledScope : Nat := 92
def HistoryClientDescribeMutableStateScope : Nat := 93
def HistoryClientGetMutableStateScope : Nat := 94
def HistoryClientPollMutableStateScope : Nat := 95
def HistoryClientResetStickyTaskListScope : Nat := 96
def HistoryClientDescribeWorkflowExecutionScope : Nat := 97
def HistoryClientRecordDecisionTaskStartedScope : Nat := 98
def HistoryClientRecordActivityTaskStartedScope : Nat := 99
def HistoryClientRequestCancelWorkflowExecutionScope : Nat := 100
def HistoryClientSignalWorkflowExecutionScope : Nat := 101
def HistoryClientSignalWithStartWorkflowExecutionScope : Nat := 102
def HistoryClientRemoveSignalMutableStateScope : Nat := 103
def HistoryClientTerminateWorkflowExecutionScope : Nat := 104
def HistoryClientResetWorkflowExecutionScope : Nat := 105
def HistoryClientScheduleDecisionTaskScope : Nat := 106
def HistoryClientRecordChildExecutionCompletedScope : Nat := 107
def HistoryClientReplicateEventsV2Scope : Nat := 108
def HistoryClientSyncShardStatusScope : Nat := 109
def HistoryClientSyncActivityScope : Nat := 110
def HistoryClientGetReplicationTasksScope : Nat := 111
def HistoryClientGetDLQReplicationTasksScope : Nat := 112
def HistoryClientQueryWorkflowScope : Nat := 113
def HistoryClientReapplyEventsScope : Nat := 114
def HistoryClientCountDLQMessagesScope : Nat := 115
def HistoryClientReadDLQMessagesScope : Nat := 116
def HistoryClientPurgeDLQMessagesScope : Nat := 117
def HistoryClientMergeDLQMessagesScope : Nat := 118
def HistoryClientRefreshWorkflowTasksScope : Nat := 119
def HistoryClientNotifyFailoverMarkersScope : Nat := 120
def HistoryClientGetCrossClusterTasksScope : Nat := 121
def HistoryClientRespondCrossClusterTasksCompletedScope : Nat := 122
def HistoryClientGetFailoverInfoScope : Nat := 123
def MatchingClientPollForDecisionTaskScope : Nat := 124
def MatchingClientPollForActivityTaskScope : Nat := 125
def MatchingClientAddActivityTaskScope : Nat := 126
def MatchingClientAddDecisionTaskScope : Nat := 127
def MatchingClientQueryWorkflowScope : Nat := 128
def MatchingClientRespondQueryTaskCompletedScope : Nat := 129
def MatchingClientCancelOutstandingPollScope : Nat := 130
def MatchingClientDescribeTaskListScope : Nat := 131
def MatchingClientListTaskListPartitionsScope : Nat := 132
def MatchingClientGetTaskListsByDomainScope : Nat := 133
def FrontendClientDeprecateDomainScope : Nat := 134
def FrontendClientDescribeDomainScope : Nat := 135
def FrontendClientDescribeTaskListScope : Nat := 136
def FrontendClientDescribeWorkflowExecutionScope : Nat := 137
def FrontendClientGetWorkflowExecutionHistoryScope : Nat := 138
def FrontendClientGetWorkflowExecutionRawHistoryScope : Nat := 139
def FrontendClientPollForWorkflowExecutionRawHistoryScope : Nat := 140
def FrontendClientListArchivedWorkflowExecutionsScope : Nat := 141
def FrontendClientListClosedWorkflowExecutionsScope : Nat := 142
def FrontendClientListDomainsScope : Nat := 143
def FrontendClientListOpenWorkflowExecutionsScope : Nat := 144
def FrontendClientPollForActivityTaskScope : Nat := 145
def FrontendClientPollForDecisionTaskScope : Nat := 146
def FrontendClientQueryWorkflowScope : Nat := 147
def FrontendClientRecordActivityTaskHeartbeatScope : Nat := 148
def FrontendClientRecordActivityTaskHeartbeatByIDScope : Nat := 149
def FrontendClientRegisterDomainScope : Nat := 150
def FrontendClientRequestCancelWorkflowExecutionScope : Nat := 151
def FrontendClientResetStickyTaskListScope : Nat := 152
def FrontendClientRefreshWorkflowTasksScope : Nat := 153
def FrontendClientResetWorkflowExecutionScope : Nat := 154
def FrontendClientRespondActivityTaskCanceledScope : Nat := 155
def FrontendClientRespondActivityTaskCanceledByIDScope : Nat := 156
def FrontendClientRespondActivityTaskCompletedScope : Nat := 157
def FrontendClientRespondActivityTaskCompletedByIDScope : Nat := 158
def FrontendClientRespondActivityTaskFailedScope : Nat := 159
def FrontendClientRespondActivityTaskFailedByIDScope : Nat := 160
def FrontendClientRespondDecisionTaskCompletedScope : Nat := 161
def FrontendClientRespondDecisionTaskFailedScope : Nat := 162
def FrontendClientRespondQueryTaskCompletedScope : Nat := 163
def FrontendClientSignalWithStartWorkflowExecutionScope : Nat := 164
def FrontendClientSignalWorkflowExecutionScope : Nat := 165
def FrontendClientStartWorkflowExecutionScope : Nat := 166
def FrontendClientTerminateWorkflowExecutionScope : Nat := 167
def FrontendClientUpdateDomainScope : Nat := 168
def FrontendClientListWorkflowExecutionsScope : Nat := 169
def FrontendClientScanWorkflowExecutionsScope : Nat := 170
def FrontendClientCountWorkflowExecutionsScope : Nat := 171
def FrontendClientGetSearchAttributesScope : Nat := 172
def FrontendClientGetReplicationTasksScope : Nat := 173
def FrontendClientGetDomainReplicationTasksScope : Nat := 174
def FrontendClientGetDLQReplicationTasksScope : Nat := 175
def FrontendClientReapplyEventsScope : Nat := 176
def FrontendClientGetClusterInfoScope : Nat := 177
def FrontendClientListTaskListPartitionsScope : Nat := 178
def FrontendClientGetTaskListsByDomainScope : Nat := 179
def AdminClientAddSearchAttributeScope : Nat := 180
def AdminClientCloseShardScope : Nat := 181
def AdminClientRemoveTaskScope : Nat := 182
def AdminClientResetQueueScope : Nat := 183
def AdminClientDescribeQueueScope : Nat := 184
def AdminClientDescribeHistoryHostScope : Nat := 185
def AdminClientDescribeShardDistributionScope : Nat := 186
def AdminClientDescribeWorkflowExecutionScope : Nat := 187
def AdminClientGetWorkflowExecutionRawHistoryV2Scope : Nat := 188
def AdminClientDescribeClusterScope : Nat := 189
def AdminClientCountDLQMessagesScope : Nat := 190
def AdminClientReadDLQMessagesScope : Nat := 191
def AdminClientPurgeDLQMessagesScope : Nat := 192
def AdminClientMergeDLQMessagesScope : Nat := 193
def AdminClientRefreshWorkflowTasksScope : Nat := 194
def AdminClientResendReplicationTasksScope : Nat := 195
def AdminClientGetCrossClusterTasksScope : Nat := 196
def AdminClientRespondCrossClusterTasksCompletedScope : Nat := 197
def AdminClientGetDynamicConfigScope : Nat := 198
def AdminClientUpdateDynamicConfigScope : Nat := 199
def AdminClientRestoreDynamicConfigScope : Nat := 200
def AdminClientListDynamicConfigScope : Nat := 201
def DCRedirectionDeprecateDomainScope : Nat := 202
def DCRedirectionDescribeDomainScope : Nat := 203
def DCRedirectionDescribeTaskListScope : Nat := 204
def DCRedirectionDescribeWorkflowExecutionScope : Nat := 205
def DCRedirectionGetWorkflowExecutionHistoryScope : Nat := 206
def DCRedirectionGetWorkflowExecutionRawHistoryScope : Nat := 207
def DCRedirectionPollForWorklfowExecutionRawHistoryScope : Nat := 208
def DCRedirectionListArchivedWorkflowExecutionsScope : Nat := 209
def DCRedirectionListClosedWorkflowExecutionsScope : Nat := 210
def DCRedirectionListDomainsScope : Nat := 211
def DCRedirectionListOpenWorkflowExecutionsScope : Nat := 212
def DCRedirectionListWorkflowExecutionsScope : Nat := 213
def DCRedirectionScanWorkflowExecutionsScope : Nat := 214
def DCRedirectionCountWorkflowExecutionsScope : Nat := 215
def DCRedirectionGetSearchAttributesScope : Nat := 216
def DCRedirectionPollForActivityTaskScope : Nat := 217
def DCRedirectionPollForDecisionTaskScope : Nat := 218
def DCRedirectionQueryWorkflowScope : Nat := 219
def DCRedirectionRecordActivityTaskHeartbeatScope : Nat := 220
def DCRedirectionRecordActivityTaskHeartbeatByIDScope : Nat := 221
def DCRedirectionRegisterDomainScope : Nat := 222
def DCRedirectionRequestCancelWorkflowExecutionScope : Nat := 223
def DCRedirectionResetStickyTaskListScope : Nat := 224
def DCRedirectionResetWorkflowExecutionScope : Nat := 225
def DCRedirectionRespondActivityTaskCanceledScope : Nat := 226
def DCRedirectionRespondActivityTaskCanceledByIDScope : Nat := 227
def DCRedirectionRespondActivityTaskCompletedScope : Nat := 228
def DCRedirectionRespondActivityTaskCompletedByIDScope : Nat := 229
def DCRedirectionRespondActivityTaskFailedScope : Nat := 230
def DCRedirectionRespondActivityTaskFailedByIDScope : Nat := 231
def DCRedirectionRespondDecisionTaskCompletedScope : Nat := 232
def DCRedirectionRespondDecisionTaskFailedScope : Nat := 233
def DCRedirectionRespondQueryTaskCompletedScope : Nat := 234
def DCRedirectionSignalWithStartWorkflowExecutionScope : Nat := 235
def DCRedirectionSignalWorkflowExecutionScope : Nat := 236
def DCRedirectionStartWorkflowExecutionScope : Nat := 237
def DCRedirectionTerminateWorkflowExecutionScope : Nat := 238
def DCRedirectionUpdateDomainScope : Nat := 239
def DCRedirectionListTaskListPartitionsScope : Nat := 240
def DCRedirectionGetTaskListsByDomainScope : Nat := 241
def DCRedirectionRefreshWorkflowTasksScope : Nat := 242
def MessagingClientPublishScope : Nat := 243
def MessagingClientPublishBatchScope : Nat := 244
def MessagingClientConsumerScope : Nat := 245
def DomainCacheScope : Nat := 246
def HistoryRereplicationByTransferTaskScope : Nat := 247
def HistoryRereplicationByTimerTaskScope : Nat := 248
def HistoryRereplicationByHistoryReplicationScope : Nat := 249
def HistoryRereplicationByHistoryMetadataReplicationScope : Nat := 250
def HistoryRereplicationByActivityReplicationScope : Nat := 251
def PersistenceAppendHistoryNodesScope : Nat := 252
def PersistenceReadHistoryBranchScope : Nat := 253
def PersistenceForkHistoryBranchScope : Nat := 254
def PersistenceDeleteHistoryBranchScope : Nat := 255
def PersistenceCompleteForkBranchScope : Nat := 256
def PersistenceGetHistoryTreeScope : Nat := 257
def PersistenceGetAllHistoryTreeBranchesScope : Nat := 258
def ClusterMetadataArchivalConfigScope : Nat := 259
def ElasticsearchRecordWorkflowExecutionStartedScope : Nat := 260
def ElasticsearchRecordWorkflowExecutionClosedScope : Nat := 261
def ElasticsearchRecordWorkflowExecutionUninitializedScope : Nat := 262
def ElasticsearchUpsertWorkflowExecutionScope : Nat := 263
def ElasticsearchListOpenWorkflowExecutionsScope : Nat := 264
def ElasticsearchListClosedWorkflowExecutionsScope : Nat := 265
def ElasticsearchListOpenWorkflowExecutionsByTypeScope : Nat := 266
def ElasticsearchListClosedWorkflowExecutionsByTypeScope : Nat := 267
def ElasticsearchListOpenWorkflowExecutionsByWorkflowIDScope : Nat := 268
def ElasticsearchListClosedWorkflowExecutionsByWorkflowIDScope : Nat := 269
def ElasticsearchListClosedWorkflowExecutionsByStatusScope : Nat := 270
def ElasticsearchGetClosedWorkflowExecutionScope : Nat := 271
def ElasticsearchListWorkflowExecutionsScope : Nat := 272
def ElasticsearchScanWorkflowExecutionsScope : Nat := 273
def ElasticsearchCountWorkflowExecutionsScope : Nat := 274
def ElasticsearchDeleteWorkflowExecutionsScope : Nat := 275
def SequentialTaskProcessingScope : Nat := 276
def ParallelTaskProcessingScope : Nat := 277
def TaskSchedulerScope : Nat := 278
def HistoryArchiverScope : Nat := 279
def VisibilityArchiverScope : Nat := 280
def BlobstoreClientUploadScope : Nat := 281
def BlobstoreClientDownloadScope : Nat := 282
def BlobstoreClientGetMetadataScope : Nat := 283
def BlobstoreClientExistsScope : Nat := 284
def BlobstoreClientDeleteScope : Nat := 285
def BlobstoreClientDirectoryExistsScope : Nat := 286
def DomainFailoverScope : Nat := 287
def DomainReplicationQueueScope : Nat := 288
def NumCommonScopes : Nat := 289

-- Admin service operation scopes (iota + NumCommonScopes)
def AdminDescribeHistoryHostScope : Nat := 289
def AdminAddSearchAttributeScope : Nat := 290
def AdminDescribeWorkflowExecutionScope : Nat := 291
def AdminGetWorkflowExecutionRawHistoryScope : Nat := 292
def AdminGetWorkflowExecutionRawHistoryV2Scope : Nat := 293
def AdminGetReplicationMessagesScope : Nat := 294
def AdminGetDomainReplicationMessagesScope : Nat := 295
def AdminGetDLQReplicationMessagesScope : Nat := 296
def AdminReapplyEventsScope : Nat := 297
def AdminRefreshWorkflowTasksScope : Nat := 298
def AdminResendReplicationTasksScope : Nat := 299
def AdminRemoveTaskScope : Nat := 300
def AdminCloseShardScope : Nat := 301
def AdminResetQueueScope : Nat := 302
def AdminDescribeQueueScope : Nat := 303
def AdminCountDLQMessagesScope : Nat := 304
def AdminReadDLQMessagesScope : Nat := 305
def AdminPurgeDLQMessagesScope : Nat := 306
def AdminMergeDLQMessagesScope : Nat := 307
def AdminDescribeShardDistributionScope : Nat := 308
def AdminGetCrossClusterTasksScope : Nat := 309
def AdminRespondCrossClusterTasksCompletedScope : Nat := 310
def AdminGetDynamicConfigScope : Nat := 311
def AdminUpdateDynamicConfigScope : Nat := 312
def AdminRestoreDynamicConfigScope : Nat := 313
def AdminListDynamicConfigScope : Nat := 314
def AdminDeleteWorkflowScope : Nat := 315
def MaintainCorruptWorkflowScope : Nat := 316
def NumAdminScopes : Nat := 317

-- Frontend service operation scopes (iota + NumAdminScopes)
def FrontendRestartWorkflowExecutionScope : Nat := 317
def FrontendStartWorkflowExecutionScope : Nat := 318
def FrontendPollForDecisionTaskScope : Nat := 319
def FrontendPollForActivityTaskScope : Nat := 320
def FrontendRecordActivityTaskHeartbeatScope : Nat := 321
def FrontendRecordActivityTaskHeartbeatByIDScope : Nat := 322
def FrontendRespondDecisionTaskCompletedScope : Nat := 323
def FrontendRespondDecisionTaskFailedScope : Nat := 324
def FrontendRespondQueryTaskCompletedScope : Nat := 325
def FrontendRespondActivityTaskCompletedScope : Nat := 326
def FrontendRespondActivityTaskFailedScope : Nat := 327
def FrontendRespondActivityTaskCanceledScope : Nat := 328
def FrontendRespondActivityTaskCompletedByIDScope : Nat := 329
def FrontendRespondActivityTaskFailedByIDScope : Nat := 330
def FrontendRespondActivityTaskCanceledByIDScope : Nat := 331
def FrontendGetWorkflowExecutionHistoryScope : Nat := 332
def FrontendGetWorkflowExecutionRawHistoryScope : Nat := 333
def FrontendPollForWorklfowExecutionRawHistoryScope : Nat := 334
def FrontendSignalWorkflowExecutionScope : Nat := 335
def FrontendSignalWithStartWorkflowExecutionScope : Nat := 336
def FrontendTerminateWorkflowExecutionScope : Nat := 337
def FrontendRequestCancelWorkflowExecutionScope : Nat := 338
def FrontendListArchivedWorkflowExecutionsScope : Nat := 339
def FrontendListOpenWorkflowExecutionsScope : Nat := 340
def FrontendListClosedWorkflowExecutionsScope : Nat := 341
def FrontendListWorkflowExecutionsScope : Nat := 342
def FrontendScanWorkflowExecutionsScope : Nat := 343
def FrontendCountWorkflowExecutionsScope : Nat := 344
def FrontendRegisterDomainScope : Nat := 345
def FrontendDescribeDomainScope : Nat := 346
def FrontendUpdateDomainScope : Nat := 347
def FrontendDeprecateDomainScope : Nat := 348
def FrontendQueryWorkflowScope : Nat := 349
def FrontendDescribeWorkflowExecutionScope : Nat := 350
def FrontendDescribeTaskListScope : Nat := 351
def FrontendListTaskListPartitionsScope : Nat := 352
def FrontendGetTaskListsByDomainScope : Nat := 353
def FrontendRefreshWorkflowTasksScope : Nat := 354
def FrontendResetStickyTaskListScope : Nat := 355
def FrontendListDomainsScope : Nat := 356
def FrontendResetWorkflowExecutionScope : Nat := 357
def FrontendGetSearchAttributesScope : Nat := 358
def NumFrontendScopes : Nat := 359

-- History service operation scopes (iota + NumCommonScopes)
def HistoryStartWorkflowExecutionScope : Nat := 289
def HistoryRecordActivityTaskHeartbeatScope : Nat := 290
def HistoryRespondDecisionTaskCompletedScope : Nat := 291
def HistoryRespondDecisionTaskFailedScope : Nat := 292
def HistoryRespondActivityTaskCompletedScope : Nat := 293
def HistoryRespondActivityTaskFailedScope : Nat := 294
def HistoryRespondActivityTaskCanceledScope : Nat := 295
def HistoryResetQueueScope : Nat := 296
def HistoryDescribeQueueScope : Nat := 297
def HistoryDescribeMutabelStateScope : Nat := 298
def HistoryGetMutableStateScope : Nat := 299
def HistoryPollMutableStateScope : Nat := 300
def HistoryResetStickyTaskListScope : Nat := 301
def HistoryDescribeWorkflowExecutionScope : Nat := 302
def HistoryRecordDecisionTaskStartedScope : Nat := 303
def HistoryRecordActivityTaskStartedScope : Nat := 304
def HistorySignalWorkflowExecutionScope : Nat := 305
def HistorySignalWithStartWorkflowExecutionScope : Nat := 306
def HistoryRemoveSignalMutableStateScope : Nat := 307
def HistoryTerminateWorkflowExecutionScope : Nat := 308
def HistoryScheduleDecisionTaskScope : Nat := 309
def HistoryRecordChildExecutionCompletedScope : Nat := 310
def HistoryRequestCancelWorkflowExecutionScope : Nat := 311
def HistoryReplicateEventsScope : Nat := 312
def HistoryReplicateRawEventsScope : Nat := 313
def HistoryReplicateEventsV2Scope : Nat := 314
def HistorySyncShardStatusScope : Nat := 315
def HistorySyncActivityScope : Nat := 316
def HistoryDescribeMutableStateScope : Nat := 317
def HistoryGetReplicationMessagesScope : Nat := 318
def HistoryGetDLQReplicationMessagesScope : Nat := 319
def HistoryCountDLQMessagesScope : Nat := 320
def HistoryReadDLQMessagesScope : Nat := 321
def HistoryPurgeDLQMessagesScope : Nat := 322
def HistoryMergeDLQMessagesScope : Nat := 323
def HistoryShardControllerScope : Nat := 324
def HistoryReapplyEventsScope : Nat := 325
def HistoryRefreshWorkflowTasksScope : Nat := 326
def HistoryNotifyFailoverMarkersScope : Nat := 327
def HistoryGetCrossClusterTasksScope : Nat := 328
def HistoryRespondCrossClusterTasksCompletedScope : Nat := 329
def HistoryGetFailoverInfoScope : Nat := 330
def TaskPriorityAssignerScope : Nat := 331
def TransferQueueProcessorScope : Nat := 332
def TransferActiveQueueProcessorScope : Nat := 333
def TransferStandbyQueueProcessorScope : Nat := 334
def TransferActiveTaskActivityScope : Nat := 335
def TransferActiveTaskDecisionScope : Nat := 336
def TransferActiveTaskCloseExecutionScope : Nat := 337
def TransferActiveTaskCancelExecutionScope : Nat := 338
def TransferActiveTaskSignalExecutionScope : Nat := 339
def TransferActiveTaskStartChildExecutionScope : Nat := 340
def TransferActiveTaskRecordWorkflowStartedScope : Nat := 341
def TransferActiveTaskResetWorkflowScope : Nat := 342
def TransferActiveTaskUpsertWorkflowSearchAttributesScope : Nat := 343
def TransferActiveTaskRecordWorkflowClosedScope : Nat := 344
def TransferActiveTaskRecordChildExecutionCompletedScope : Nat := 345
def TransferActiveTaskApplyParentClosePolicyScope : Nat := 346
def TransferStandbyTaskResetWorkflowScope : Nat := 347
def TransferStandbyTaskActivityScope : Nat := 348
def TransferStandbyTaskDecisionScope : Nat := 349
def TransferStandbyTaskCloseExecutionScope : Nat := 350
def TransferStandbyTaskCancelExecutionScope : Nat := 351
def TransferStandbyTaskSignalExecutionScope : Nat := 352
def TransferStandbyTaskStartChildExecutionScope : Nat := 353
def TransferStandbyTaskRecordWorkflowStartedScope : Nat := 354
def TransferStandbyTaskUpsertWorkflowSearchAttributesScope : Nat := 355
def TransferStandbyTaskRecordWorkflowClosedScope : Nat := 356
def TransferStandbyTaskRecordChildExecutionCompletedScope : Nat := 357
def TransferStandbyTaskApplyParentClosePolicyScope : Nat := 358
def TimerQueueProcessorScope : Nat := 359
def TimerActiveQueueProcessorScope : Nat := 360
def TimerStandbyQueueProcessorScope : Nat := 361
def TimerActiveTaskActivityTimeoutScope : Nat := 362
def TimerActiveTaskDecisionTimeoutScope : Nat := 363
def TimerActiveTaskUserTimerScope : Nat := 364
def TimerActiveTaskWorkflowTimeoutScope : Nat := 365
def TimerActiveTaskActivityRetryTimerScope : Nat := 366
def TimerActiveTaskWorkflowBackoffTimerScope : Nat := 367
def TimerActiveTaskDeleteHistoryEventScope : Nat := 368
def TimerStandbyTaskActivityTimeoutScope : Nat := 369
def TimerStandbyTaskDecisionTimeoutScope : Nat := 370
def TimerStandbyTaskUserTimerScope : Nat := 371
def TimerStandbyTaskWorkflowTimeoutScope : Nat := 372
def TimerStandbyTaskActivityRetryTimerScope : Nat := 373
def TimerStandbyTaskDeleteHistoryEventScope : Nat := 374
def TimerStandbyTaskWorkflowBackoffTimerScope : Nat := 375
def CrossClusterQueueProcessorScope : Nat := 376
def CrossClusterTaskProcessorScope : Nat := 377
def CrossClusterTaskFetcherScope : Nat := 378
def CrossClusterSourceTaskStartChildExecutionScope : Nat := 379
def CrossClusterSourceTaskCancelExecutionScope : Nat := 380
def CrossClusterSourceTaskSignalExecutionScope : Nat := 381
def CrossClusterSourceTaskRecordChildWorkflowExecutionCompleteScope : Nat := 382
def CrossClusterSourceTaskApplyParentClosePolicyScope : Nat := 383
def CrossClusterTargetTaskStartChildExecutionScope : Nat := 384
def CrossClusterTargetTaskCancelExecutionScope : Nat := 385
def CrossClusterTargetTaskSignalExecutionScope : Nat := 386
def CrossClusterTargetTaskRecordChildWorkflowExecutionCompleteScope : Nat := 387
def CrossClusterTargetTaskApplyParentClosePolicyScope : Nat := 388
def HistoryEventNotificationScope : Nat := 389
def ReplicatorQueueProcessorScope : Nat := 390
def ReplicatorCacheManagerScope : Nat := 391
def ReplicatorTaskHistoryScope : Nat := 392
def ReplicatorTaskSyncActivityScope : Nat := 393
def ReplicateHistoryEventsScope : Nat := 394
def ReplicationMetricEmitterScope : Nat := 395
def ShardInfoScope : Nat := 396
def WorkflowContextScope : Nat := 397
def HistoryCacheGetAndCreateScope : Nat := 398
def HistoryCacheGetOrCreateScope : Nat := 399
def HistoryCacheGetOrCreateCurrentScope : Nat := 400
def HistoryCacheGetCurrentExecutionScope : Nat := 401
def EventsCacheGetEventScope : Nat := 402
def EventsCachePutEventScope : Nat := 403
def EventsCacheGetFromStoreScope : Nat := 404
def ExecutionSizeStatsScope : Nat := 405
def ExecutionCountStatsScope : Nat := 406
def SessionSizeStatsScope : Nat := 407
def SessionCountStatsScope : Nat := 408
def HistoryResetWorkflowExecutionScope : Nat := 409
def HistoryQueryWorkflowScope : Nat := 410
def HistoryProcessDeleteHistoryEventScope : Nat := 411
def WorkflowCompletionStatsScope : Nat := 412
def ArchiverClientScope : Nat := 413
def ReplicationTaskFetcherScope : Nat := 414
def ReplicationTaskCleanupScope : Nat := 415
def ReplicationDLQStatsScope : Nat := 416
def FailoverMarkerScope : Nat := 417
def HistoryReplicationV2TaskScope : Nat := 418
def SyncActivityTaskScope : Nat := 419
def NumHistoryScopes : Nat := 420

-- Matching service operation scopes (iota + NumCommonScopes)
def MatchingPollForDecisionTaskScope : Nat := 289
def MatchingPollForActivityTaskScope : Nat := 290
def MatchingAddActivityTaskScope : Nat := 291
def MatchingAddDecisionTaskScope : Nat := 292
def MatchingTaskListMgrScope : Nat := 293
def MatchingQueryWorkflowScope : Nat := 294
def MatchingRespondQueryTaskCompletedScope : Nat := 295
def MatchingCancelOutstandingPollScope : Nat := 296
def MatchingDescribeTaskListScope : Nat := 297
def MatchingListTaskListPartitionsScope : Nat := 298
def MatchingGetTaskListsByDomainScope : Nat := 299
def NumMatchingScopes : Nat := 300

-- Worker service operation scopes (iota + NumCommonScopes)
def ReplicatorScope : Nat := 289
def DomainReplicationTaskScope : Nat := 290
def ESProcessorScope : Nat := 291
def IndexProcessorScope : Nat := 292
def ArchiverDeleteHistoryActivityScope : Nat := 293
def ArchiverUploadHistoryActivityScope : Nat := 294
def ArchiverArchiveVisibilityActivityScope : Nat := 295
def ArchiverScope : Nat := 296
def ArchiverPumpScope : Nat := 297
def ArchiverArchivalWorkflowScope : Nat := 298
def TaskListScavengerScope : Nat := 299
def ExecutionsScannerScope : Nat := 300
def ExecutionsFixerScope : Nat := 301
def BatcherScope : Nat := 302
def HistoryScavengerScope : Nat := 303
def ParentClosePolicyProcessorScope : Nat := 304
def ShardScannerScope : Nat := 305
def CheckDataCorruptionWorkflowScope : Nat := 306
def ESAnalyzerScope : Nat := 307
def WatchDogScope : Nat := 308
def NumWorkerScopes : Nat := 309

def scopeDefsCommon0 : List (Nat × scopeDefinition) := [
  (PersistenceCreateShardScope, { operation := "CreateShard" }),
  (PersistenceGetShardScope, { operation := "GetShard" }),
  (PersistenceUpdateShardScope, { operation := "UpdateShard" }),
  (PersistenceCreateWorkflowExecutionScope, { operation := "CreateWorkflowExecution" }),
  (PersistenceGetWorkflowExecutionScope, { operation := "GetWorkflowExecution" }),
  (PersistenceUpdateWorkflowExecutionScope, { operation := "UpdateWorkflowExecution" }),
  (PersistenceConflictResolveWorkflowExecutionScope, { operation := "ConflictResolveWorkflowExecution" }),
  (PersistenceResetWorkflowExecutionScope, { operation := "ResetWorkflowExecution" }),
  (PersistenceDeleteWorkflowExecutionScope, { operation := "DeleteWorkflowExecution" }),
  (PersistenceDeleteCurrentWorkflowExecutionScope, { operation := "DeleteCurrentWorkflowExecution" }),
  (PersistenceGetCurrentExecutionScope, { operation := "GetCurrentExecution" }),
  (PersistenceIsWorkflowExecutionExistsScope, { operation := "IsWorkflowExecutionExists" }),
  (PersistenceListCurrentExecutionsScope, { operation := "ListCurrentExecutions" }),
  (PersistenceListConcreteExecutionsScope, { operation := "ListConcreteExecutions" }),
  (PersistenceGetTransferTasksScope, { operation := "GetTransferTasks" }),
  (PersistenceCompleteTransferTaskScope, { operation := "CompleteTransferTask" }),
  (PersistenceRangeCompleteTransferTaskScope, { operation := "RangeCompleteTransferTask" }),
  (PersistenceGetCrossClusterTasksScope, { operation := "GetCrossClusterTasks" }),
  (PersistenceCompleteCrossClusterTaskScope, { operation := "GetCrossClusterTasks" }),
  (PersistenceRangeCompleteCrossClusterTaskScope, { operation := "GetCrossClusterTasks" }),
  (PersistenceGetReplicationTasksScope, { operation := "GetReplicationTasks" }),
  (PersistenceCompleteReplicationTaskScope, { operation := "CompleteReplicationTask" }),
  (PersistenceRangeCompleteReplicationTaskScope, { operation := "RangeCompleteReplicationTask" }),
  (PersistencePutReplicationTaskToDLQScope, { operation := "PutReplicationTaskToDLQ" }),
  (PersistenceGetReplicationTasksFromDLQScope, { operation := "GetReplicationTasksFromDLQ" }),
  (PersistenceGetReplicationDLQSizeScope, { operation := "GetReplicationDLQSize" }),
  (PersistenceDeleteReplicationTaskFromDLQScope, { operation := "DeleteReplicationTaskFromDLQ" }),
  (PersistenceRangeDeleteReplicationTaskFromDLQScope, { operation := "RangeDeleteReplicationTaskFromDLQ" }),
  (PersistenceCreateFailoverMarkerTasksScope, { operation := "CreateFailoverMarkerTasks" }),
  (PersistenceGetTimerIndexTasksScope, { operation := "GetTimerIndexTasks" })
]

def scopeDefsCommon1 : List (Nat × scopeDefinition) := [
  (PersistenceCompleteTimerTaskScope, { operation := "CompleteTimerTask" }),
  (PersistenceRangeCompleteTimerTaskScope, { operation := "RangeCompleteTimerTask" }),
  (PersistenceCreateTaskScope, { operation := "CreateTask" }),
  (PersistenceGetTasksScope, { operation := "GetTasks" }),
  (PersistenceCompleteTaskScope, { operation := "CompleteTask" }),
  (PersistenceCompleteTasksLessThanScope, { operation := "CompleteTasksLessThan" }),
  (PersistenceGetOrphanTasksScope, { operation := "GetOrphanTasks" }),
  (PersistenceLeaseTaskListScope, { operation := "LeaseTaskList" }),
  (PersistenceUpdateTaskListScope, { operation := "UpdateTaskList" }),
  (PersistenceListTaskListScope, { operation := "ListTaskList" }),
  (PersistenceDeleteTaskListScope, { operation := "DeleteTaskList" }),
  (PersistenceAppendHistoryEventsScope, { operation := "AppendHistoryEvents" }),
  (PersistenceGetWorkflowExecutionHistoryScope, { operation := "GetWorkflowExecutionHistory" }),
  (PersistenceDeleteWorkflowExecutionHistoryScope, { operation := "DeleteWorkflowExecutionHistory" }),
  (PersistenceCreateDomainScope, { operation := "CreateDomain" }),
  (PersistenceGetDomainScope, { operation := "GetDomain" }),
  (PersistenceUpdateDomainScope, { operation := "UpdateDomain" }),
  (PersistenceDeleteDomainScope, { operation := "DeleteDomain" }),
  (PersistenceDeleteDomainByNameScope, { operation := "DeleteDomainByName" }),
  (PersistenceListDomainScope, { operation := "ListDomain" }),
  (PersistenceGetMetadataScope, { operation := "GetMetadata" }),
  (PersistenceRecordWorkflowExecutionStartedScope, { operation := "RecordWorkflowExecutionStarted" }),
  (PersistenceRecordWorkflowExecutionClosedScope, { operation := "RecordWorkflowExecutionClosed" }),
  (PersistenceRecordWorkflowExecutionUninitializedScope, { operation := "RecordWorkflowExecutionUninitialized" }),
  (PersistenceUpsertWorkflowExecutionScope, { operation := "UpsertWorkflowExecution" }),
  (PersistenceListOpenWorkflowExecutionsScope, { operation := "ListOpenWorkflowExecutions" }),
  (PersistenceListClosedWorkflowExecutionsScope, { operation := "ListClosedWorkflowExecutions" }),
  (PersistenceListOpenWorkflowExecutionsByTypeScope, { operation := "ListOpenWorkflowExecutionsByType" }),
  (PersistenceListClosedWorkflowExecutionsByTypeScope, { operation := "ListClosedWorkflowExecutionsByType" }),
  (PersistenceListOpenWorkflowExecutionsByWorkflowIDScope, { operation := "ListOpenWorkflowExecutionsByWorkflowID" })
]

def scopeDefsCommon2 : List (Nat × scopeDefinition) := [
  (PersistenceListClosedWorkflowExecutionsByWorkflowIDScope, { operation := "ListClosedWorkflowExecutionsByWorkflowID" }),
  (PersistenceListClosedWorkflowExecutionsByStatusScope, { operation := "ListClosedWorkflowExecutionsByStatus" }),
  (PersistenceGetClosedWorkflowExecutionScope, { operation := "GetClosedWorkflowExecution" }),
  (PersistenceVisibilityDeleteWorkflowExecutionScope, { operation := "VisibilityDeleteWorkflowExecution" }),
  (PersistenceListWorkflowExecutionsScope, { operation := "ListWorkflowExecutions" }),
  (PersistenceScanWorkflowExecutionsScope, { operation := "ScanWorkflowExecutions" }),
  (PersistenceCountWorkflowExecutionsScope, { operation := "CountWorkflowExecutions" }),
  (PersistenceAppendHistoryNodesScope, { operation := "AppendHistoryNodes" }),
  (PersistenceReadHistoryBranchScope, { operation := "ReadHistoryBranch" }),
  (PersistenceForkHistoryBranchScope, { operation := "ForkHistoryBranch" }),
  (PersistenceDeleteHistoryBranchScope, { operation := "DeleteHistoryBranch" }),
  (PersistenceCompleteForkBranchScope, { operation := "CompleteForkBranch" }),
  (PersistenceGetHistoryTreeScope, { operation := "GetHistoryTree" }),
  (PersistenceGetAllHistoryTreeBranchesScope, { operation := "GetAllHistoryTreeBranches" }),
  (PersistenceEnqueueMessageScope, { operation := "EnqueueMessage" }),
  (PersistenceEnqueueMessageToDLQScope, { operation := "EnqueueMessageToDLQ" }),
  (PersistenceReadQueueMessagesScope, { operation := "ReadQueueMessages" }),
  (PersistenceReadQueueMessagesFromDLQScope, { operation := "ReadQueueMessagesFromDLQ" }),
  (PersistenceDeleteQueueMessagesScope, { operation := "DeleteQueueMessages" }),
  (PersistenceDeleteQueueMessageFromDLQScope, { operation := "DeleteQueueMessageFromDLQ" }),
  (PersistenceRangeDeleteMessagesFromDLQScope, { operation := "RangeDeleteMessagesFromDLQ" }),
  (PersistenceUpdateAckLevelScope, { operation := "UpdateAckLevel" }),
  (PersistenceGetAckLevelScope, { operation := "GetAckLevel" }),
  (PersistenceUpdateDLQAckLevelScope, { operation := "UpdateDLQAckLevel" }),
  (PersistenceGetDLQAckLevelScope, { operation := "GetDLQAckLevel" }),
  (PersistenceGetDLQSizeScope, { operation := "GetDLQSize" }),
  (PersistenceFetchDynamicConfigScope, { operation := "FetchDynamicConfig" }),
  (PersistenceUpdateDynamicConfigScope, { operation := "UpdateDynamicConfig" }),
  (ClusterMetadataArchivalConfigScope, { operation := "ArchivalConfig" }),
  (HistoryClientStartWorkflowExecutionScope, { operation := "HistoryClientStartWorkflowExecution", tags := [("cadence_role", "history_client")] })
]

def scopeDefsCommon3 : List (Nat × scopeDefinition) := [
  (HistoryClientDescribeHistoryHostScope, { operation := "HistoryClientDescribeHistoryHost", tags := [("cadence_role", "history_client")] }),
  (HistoryClientRemoveTaskScope, { operation := "HistoryClientRemoveTask", tags := [("cadence_role", "history_client")] }),
  (HistoryClientCloseShardScope, { operation := "HistoryClientCloseShard", tags := [("cadence_role", "history_client")] }),
  (HistoryClientResetQueueScope, { operation := "HistoryClientResetQueue", tags := [("cadence_role", "history_client")] }),
  (HistoryClientDescribeQueueScope, { operation := "HistoryClientDescribeQueue", tags := [("cadence_role", "history_client")] }),
  (HistoryClientRecordActivityTaskHeartbeatScope, { operation := "HistoryClientRecordActivityTaskHeartbeat", tags := [("cadence_role", "history_client")] }),
  (HistoryClientRespondDecisionTaskCompletedScope, { operation := "HistoryClientRespondDecisionTaskCompleted", tags := [("cadence_role", "history_client")] }),
  (HistoryClientRespondDecisionTaskFailedScope, { operation := "HistoryClientRespondDecisionTaskFailed", tags := [("cadence_role", "history_client")] }),
  (HistoryClientRespondActivityTaskCompletedScope, { operation := "HistoryClientRespondActivityTaskCompleted", tags := [("cadence_role", "history_client")] }),
  (HistoryClientRespondActivityTaskFailedScope, { operation := "HistoryClientRespondActivityTaskFailed", tags := [("cadence_role", "history_client")] }),
  (HistoryClientRespondActivityTaskCanceledScope, { operation := "HistoryClientRespondActivityTaskCanceled", tags := [("cadence_role", "history_client")] }),
  (HistoryClientDescribeMutableStateScope, { operation := "HistoryClientDescribeMutableState", tags := [("cadence_role", "history_client")] }),
  (HistoryClientGetMutableStateScope, { operation := "HistoryClientGetMutableState", tags := [("cadence_role", "history_client")] }),
  (HistoryClientPollMutableStateScope, { operation := "HistoryClientPollMutableState", tags := [("cadence_role", "history_client")] }),
  (HistoryClientResetStickyTaskListScope, { operation := "HistoryClientResetStickyTaskListScope", tags := [("cadence_role", "history_client")] }),
  (HistoryClientDescribeWorkflowExecutionScope, { operation := "HistoryClientDescribeWorkflowExecution", tags := [("cadence_role", "history_client")] }),
  (HistoryClientRecordDecisionTaskStartedScope, { operation := "HistoryClientRecordDecisionTaskStarted", tags := [("cadence_role", "history_client")] }),
  (HistoryClientRecordActivityTaskStartedScope, { operation := "HistoryClientRecordActivityTaskStarted", tags := [("cadence_role", "history_client")] }),
  (HistoryClientRequestCancelWorkflowExecutionScope, { operation := "HistoryClientRequestCancelWorkflowExecution", tags := [("cadence_role", "history_client")] }),
  (HistoryClientSignalWorkflowExecutionScope, { operation := "HistoryClientSignalWorkflowExecution", tags := [("cadence_role", "history_client")] }),
  (HistoryClientSignalWithStartWorkflowExecutionScope, { operation := "HistoryClientSignalWithStartWorkflowExecution", tags := [("cadence_role", "history_client")] }),
  (HistoryClientRemoveSignalMutableStateScope, { operation := "HistoryClientRemoveSignalMutableStateScope", tags := [("cadence_role", "history_client")] }),
  (HistoryClientTerminateWorkflowExecutionScope, { operation := "HistoryClientTerminateWorkflowExecution", tags := [("cadence_role", "history_client")] }),
  (HistoryClientResetWorkflowExecutionScope, { operation := "HistoryClientResetWorkflowExecution", tags := [("cadence_role", "history_client")] }),
  (HistoryClientScheduleDecisionTaskScope, { operation := "HistoryClientScheduleDecisionTask", tags := [("cadence_role", "history_client")] }),
  (HistoryClientRecordChildExecutionCompletedScope, { operation := "HistoryClientRecordChildExecutionCompleted", tags := [("cadence_role", "history_client")] }),
  (HistoryClientReplicateEventsV2Scope, { operation := "HistoryClientReplicateEventsV2", tags := [("cadence_role", "history_client")] }),
  (HistoryClientSyncShardStatusScope, { operation := "HistoryClientSyncShardStatusScope", tags := [("cadence_role", "history_client")] }),
  (HistoryClientSyncActivityScope, { operation := "HistoryClientSyncActivityScope", tags := [("cadence_role", "history_client")] }),
  (HistoryClientGetReplicationTasksScope, { operation := "HistoryClientGetReplicationTasksScope", tags := [("cadence_role", "history_client")] })
]

def scopeDefsCommon4 : List (Nat × scopeDefinition) := [
  (HistoryClientGetDLQReplicationTasksScope, { operation := "HistoryClientGetDLQReplicationTasksScope", tags := [("cadence_role", "history_client")] }),
  (HistoryClientQueryWorkflowScope, { operation := "HistoryClientQueryWorkflowScope", tags := [("cadence_role", "history_client")] }),
  (HistoryClientReapplyEventsScope, { operation := "HistoryClientReapplyEventsScope", tags := [("cadence_role", "history_client")] }),
  (HistoryClientCountDLQMessagesScope, { operation := "HistoryClientCountDLQMessagesScope", tags := [("cadence_role", "history_client")] }),
  (HistoryClientReadDLQMessagesScope, { operation := "HistoryClientReadDLQMessagesScope", tags := [("cadence_role", "history_client")] }),
  (HistoryClientPurgeDLQMessagesScope, { operation := "HistoryClientPurgeDLQMessagesScope", tags := [("cadence_role", "history_client")] }),
  (HistoryClientMergeDLQMessagesScope, { operation := "HistoryClientMergeDLQMessagesScope", tags := [("cadence_role", "history_client")] }),
  (HistoryClientRefreshWorkflowTasksScope, { operation := "HistoryClientRefreshWorkflowTasksScope", tags := [("cadence_role", "history_client")] }),
  (HistoryClientNotifyFailoverMarkersScope, { operation := "HistoryClientNotifyFailoverMarkersScope", tags := [("cadence_role", "history_client")] }),
  (HistoryClientGetCrossClusterTasksScope, { operation := "HistoryClientGetCrossClusterTasks", tags := [("cadence_role", "history_client")] }),
  (HistoryClientRespondCrossClusterTasksCompletedScope, { operation := "HistoryClientRespondCrossClusterTasksCompleted", tags := [("cadence_role", "history_client")] }),
  (HistoryClientGetFailoverInfoScope, { operation := "HistoryClientGetFailoverInfo", tags := [("cadence_role", "history_client")] }),
  (MatchingClientPollForDecisionTaskScope, { operation := "MatchingClientPollForDecisionTask", tags := [("cadence_role", "matching_client")] }),
  (MatchingClientPollForActivityTaskScope, { operation := "MatchingClientPollForActivityTask", tags := [("cadence_role", "matching_client")] }),
  (MatchingClientAddActivityTaskScope, { operation := "MatchingClientAddActivityTask", tags := [("cadence_role", "matching_client")] }),
  (MatchingClientAddDecisionTaskScope, { operation := "MatchingClientAddDecisionTask", tags := [("cadence_role", "matching_client")] }),
  (MatchingClientQueryWorkflowScope, { operation := "MatchingClientQueryWorkflow", tags := [("cadence_role", "matching_client")] }),
  (MatchingClientRespondQueryTaskCompletedScope, { operation := "MatchingClientRespondQueryTaskCompleted", tags := [("cadence_role", "matching_client")] }),
  (MatchingClientCancelOutstandingPollScope, { operation := "MatchingClientCancelOutstandingPoll", tags := [("cadence_role", "matching_client")] }),
  (MatchingClientDescribeTaskListScope, { operation := "MatchingClientDescribeTaskList", tags := [("cadence_role", "matching_client")] }),
  (MatchingClientListTaskListPartitionsScope, { operation := "MatchingClientListTaskListPartitions", tags := [("cadence_role", "matching_client")] }),
  (MatchingClientGetTaskListsByDomainScope, { operation := "MatchingClientGetTaskListsByDomain", tags := [("cadence_role", "matching_client")] }),
  (FrontendClientDeprecateDomainScope, { operation := "FrontendClientDeprecateDomain", tags := [("cadence_role", "frontend_client")] }),
  (FrontendClientDescribeDomainScope, { operation := "FrontendClientDescribeDomain", tags := [("cadence_role", "frontend_client")] }),
  (FrontendClientDescribeTaskListScope, { operation := "FrontendClientDescribeTaskList", tags := [("cadence_role", "frontend_client")] }),
  (FrontendClientDescribeWorkflowExecutionScope, { operation := "FrontendClientDescribeWorkflowExecution", tags := [("cadence_role", "frontend_client")] }),
  (FrontendClientGetWorkflowExecutionHistoryScope, { operation := "FrontendClientGetWorkflowExecutionHistory", tags := [("cadence_role", "frontend_client")] }),
  (FrontendClientGetWorkflowExecutionRawHistoryScope, { operation := "FrontendClientGetWorkflowExecutionRawHistory", tags := [("cadence_role", "frontend_client")] }),
  (FrontendClientPollForWorkflowExecutionRawHistoryScope, { operation := "FrontendClientPollForWorkflowExecutionRawHistory", tags := [("cadence_role", "frontend_client")] }),
  (FrontendClientListArchivedWorkflowExecutionsScope, { operation := "FrontendClientListArchivedWorkflowExecutions", tags := [("cadence_role", "frontend_client")] })
]

def scopeDefsCommon5 : List (Nat × scopeDefinition) := [
  (FrontendClientListClosedWorkflowExecutionsScope, { operation := "FrontendClientListClosedWorkflowExecutions", tags := [("cadence_role", "frontend_client")] }),
  (FrontendClientListDomainsScope, { operation := "FrontendClientListDomains", tags := [("cadence_role", "frontend_client")] }),
  (FrontendClientListOpenWorkflowExecutionsScope, { operation := "FrontendClientListOpenWorkflowExecutions", tags := [("cadence_role", "frontend_client")] }),
  (FrontendClientPollForActivityTaskScope, { operation := "FrontendClientPollForActivityTask", tags := [("cadence_role", "frontend_client")] }),
  (FrontendClientPollForDecisionTaskScope, { operation := "FrontendClientPollForDecisionTask", tags := [("cadence_role", "frontend_client")] }),
  (FrontendClientQueryWorkflowScope, { operation := "FrontendClientQueryWorkflow", tags := [("cadence_role", "frontend_client")] }),
  (FrontendClientRecordActivityTaskHeartbeatScope, { operation := "FrontendClientRecordActivityTaskHeartbeat", tags := [("cadence_role", "frontend_client")] }),
  (FrontendClientRecordActivityTaskHeartbeatByIDScope, { operation := "FrontendClientRecordActivityTaskHeartbeatByID", tags := [("cadence_role", "frontend_client")] }),
  (FrontendClientRegisterDomainScope, { operation := "FrontendClientRegisterDomain", tags := [("cadence_role", "frontend_client")] }),
  (FrontendClientRequestCancelWorkflowExecutionScope, { operation := "FrontendClientRequestCancelWorkflowExecution", tags := [("cadence_role", "frontend_client")] }),
  (FrontendClientResetStickyTaskListScope, { operation := "FrontendClientResetStickyTaskList", tags := [("cadence_role", "frontend_client")] }),
  (FrontendClientRefreshWorkflowTasksScope, { operation := "FrontendClientRefreshWorkflowTasks", tags := [("cadence_role", "frontend_client")] }),
  (FrontendClientResetWorkflowExecutionScope, { operation := "FrontendClientResetWorkflowExecution", tags := [("cadence_role", "frontend_client")] }),
  (FrontendClientRespondActivityTaskCanceledScope, { operation := "FrontendClientRespondActivityTaskCanceled", tags := [("cadence_role", "frontend_client")] }),
  (FrontendClientRespondActivityTaskCanceledByIDScope, { operation := "FrontendClientRespondActivityTaskCanceledByID", tags := [("cadence_role", "frontend_client")] }),
  (FrontendClientRespondActivityTaskCompletedScope, { operation := "FrontendClientRespondActivityTaskCompleted", tags := [("cadence_role", "frontend_client")] }),
  (FrontendClientRespondActivityTaskCompletedByIDScope, { operation := "FrontendClientRespondActivityTaskCompletedByID", tags := [("cadence_role", "frontend_client")] }),
  (FrontendClientRespondActivityTaskFailedScope, { operation := "FrontendClientRespondActivityTaskFailed", tags := [("cadence_role", "frontend_client")] }),
  (FrontendClientRespondActivityTaskFailedByIDScope, { operation := "FrontendClientRespondActivityTaskFailedByID", tags := [("cadence_role", "frontend_client")] }),
  (FrontendClientRespondDecisionTaskCompletedScope, { operation := "FrontendClientRespondDecisionTaskCompleted", tags := [("cadence_role", "frontend_client")] }),
  (FrontendClientRespondDecisionTaskFailedScope, { operation := "FrontendClientRespondDecisionTaskFailed", tags := [("cadence_role", "frontend_client")] }),
  (FrontendClientRespondQueryTaskCompletedScope, { operation := "FrontendClientRespondQueryTaskCompleted", tags := [("cadence_role", "frontend_client")] }),
  (FrontendClientSignalWithStartWorkflowExecutionScope, { operation := "FrontendClientSignalWithStartWorkflowExecution", tags := [("cadence_role", "frontend_client")] }),
  (FrontendClientSignalWorkflowExecutionScope, { operation := "FrontendClientSignalWorkflowExecution", tags := [("cadence_role", "frontend_client")] }),
  (FrontendClientStartWorkflowExecutionScope, { operation := "FrontendClientStartWorkflowExecution", tags := [("cadence_role", "frontend_client")] }),
  (FrontendClientTerminateWorkflowExecutionScope, { operation := "FrontendClientTerminateWorkflowExecution", tags := [("cadence_role", "frontend_client")] }),
  (FrontendClientUpdateDomainScope, { operation := "FrontendClientUpdateDomain", tags := [("cadence_role", "frontend_client")] }),
  (FrontendClientListWorkflowExecutionsScope, { operation := "FrontendClientListWorkflowExecutions", tags := [("cadence_role", "frontend_client")] }),
  (FrontendClientScanWorkflowExecutionsScope, { operation := "FrontendClientScanWorkflowExecutions", tags := [("cadence_role", "frontend_client")] }),
  (FrontendClientCountWorkflowExecutionsScope, { operation := "FrontendClientCountWorkflowExecutions", tags := [("cadence_role", "frontend_client")] })
]

def scopeDefsCommon6 : List (Nat × scopeDefinition) := [
  (FrontendClientGetSearchAttributesScope, { operation := "FrontendClientGetSearchAttributes", tags := [("cadence_role", "frontend_client")] }),
  (FrontendClientGetReplicationTasksScope, { operation := "FrontendClientGetReplicationTasksScope", tags := [("cadence_role", "frontend_client")] }),
  (FrontendClientGetDomainReplicationTasksScope, { operation := "FrontendClientGetDomainReplicationTasksScope", tags := [("cadence_role", "frontend_client")] }),
  (FrontendClientGetDLQReplicationTasksScope, { operation := "FrontendClientGetDLQReplicationTasksScope", tags := [("cadence_role", "frontend_client")] }),
  (FrontendClientReapplyEventsScope, { operation := "FrontendClientReapplyEventsScope", tags := [("cadence_role", "frontend_client")] }),
  (FrontendClientGetClusterInfoScope, { operation := "FrontendClientGetClusterInfoScope", tags := [("cadence_role", "frontend_client")] }),
  (FrontendClientListTaskListPartitionsScope, { operation := "FrontendClientListTaskListPartitions", tags := [("cadence_role", "frontend_client")] }),
  (FrontendClientGetTaskListsByDomainScope, { operation := "FrontendClientGetTaskListsByDomain", tags := [("cadence_role", "frontend_client")] }),
  (AdminClientAddSearchAttributeScope, { operation := "AdminClientAddSearchAttribute", tags := [("cadence_role", "admin_client")] }),
  (AdminClientDescribeHistoryHostScope, { operation := "AdminClientDescribeHistoryHost", tags := [("cadence_role", "admin_client")] }),
  (AdminClientDescribeShardDistributionScope, { operation := "AdminClientDescribeShardDistribution", tags := [("cadence_role", "admin_client")] }),
  (AdminClientDescribeWorkflowExecutionScope, { operation := "AdminClientDescribeWorkflowExecution", tags := [("cadence_role", "admin_client")] }),
  (AdminClientGetWorkflowExecutionRawHistoryV2Scope, { operation := "AdminClientGetWorkflowExecutionRawHistoryV2", tags := [("cadence_role", "admin_client")] }),
  (AdminClientDescribeClusterScope, { operation := "AdminClientDescribeCluster", tags := [("cadence_role", "admin_client")] }),
  (AdminClientRefreshWorkflowTasksScope, { operation := "AdminClientRefreshWorkflowTasks", tags := [("cadence_role", "admin_client")] }),
  (AdminClientResendReplicationTasksScope, { operation := "AdminClientResendReplicationTasks", tags := [("cadence_role", "admin_client")] }),
  (AdminClientCloseShardScope, { operation := "AdminClientCloseShard", tags := [("cadence_role", "admin_client")] }),
  (AdminClientRemoveTaskScope, { operation := "AdminClientRemoveTask", tags := [("cadence_role", "admin_client")] }),
  (AdminClientResetQueueScope, { operation := "AdminClientResetQueue", tags := [("cadence_role", "admin_client")] }),
  (AdminClientDescribeQueueScope, { operation := "AdminClientDescribeQueue", tags := [("cadence_role", "admin_client")] }),
  (AdminClientCountDLQMessagesScope, { operation := "AdminClientCountDLQMessages", tags := [("cadence_role", "admin_client")] }),
  (AdminClientReadDLQMessagesScope, { operation := "AdminClientReadDLQMessages", tags := [("cadence_role", "admin_client")] }),
  (AdminClientPurgeDLQMessagesScope, { operation := "AdminClientPurgeDLQMessages", tags := [("cadence_role", "admin_client")] }),
  (AdminClientMergeDLQMessagesScope, { operation := "AdminClientMergeDLQMessages", tags := [("cadence_role", "admin_client")] }),
  (AdminClientGetCrossClusterTasksScope, { operation := "AdminClientGetCrossClusterTasks", tags := [("cadence_role", "admin_client")] }),
  (AdminClientRespondCrossClusterTasksCompletedScope, { operation := "AdminClientRespondCrossClusterTasksCompleted", tags := [("cadence_role", "admin_client")] }),
  (AdminClientGetDynamicConfigScope, { operation := "AdminClientGetDynamicConfigScope", tags := [("cadence_role", "admin_client")] }),
  (AdminClientUpdateDynamicConfigScope, { operation := "AdminClientUpdateDynamicConfigScope", tags := [("cadence_role", "admin_client")] }),
  (AdminClientRestoreDynamicConfigScope, { operation := "AdminClientRestoreDynamicConfigScope", tags := [("cadence_role", "admin_client")] }),
  (AdminClientListDynamicConfigScope, { operation := "AdminClientListDynamicConfigScope", tags := [("cadence_role", "admin_client")] })
]

def scopeDefsCommon7 : List (Nat × scopeDefinition) := [
  (DCRedirectionDeprecateDomainScope, { operation := "DCRedirectionDeprecateDomain", tags := [("cadence_role", "dc_redirection")] }),
  (DCRedirectionDescribeDomainScope, { operation := "DCRedirectionDescribeDomain", tags := [("cadence_role", "dc_redirection")] }),
  (DCRedirectionDescribeTaskListScope, { operation := "DCRedirectionDescribeTaskList", tags := [("cadence_role", "dc_redirection")] }),
  (DCRedirectionDescribeWorkflowExecutionScope, { operation := "DCRedirectionDescribeWorkflowExecution", tags := [("cadence_role", "dc_redirection")] }),
  (DCRedirectionGetWorkflowExecutionHistoryScope, { operation := "DCRedirectionGetWorkflowExecutionHistory", tags := [("cadence_role", "dc_redirection")] }),
  (DCRedirectionGetWorkflowExecutionRawHistoryScope, { operation := "DCRedirectionGetWorkflowExecutionRawHistoryScope", tags := [("cadence_role", "dc_redirection")] }),
  (DCRedirectionPollForWorklfowExecutionRawHistoryScope, { operation := "DCRedirectionPollForWorklfowExecutionRawHistory", tags := [("cadence_role", "dc_redirection")] }),
  (DCRedirectionListArchivedWorkflowExecutionsScope, { operation := "DCRedirectionListArchivedWorkflowExecutions", tags := [("cadence_role", "dc_redirection")] }),
  (DCRedirectionListClosedWorkflowExecutionsScope, { operation := "DCRedirectionListClosedWorkflowExecutions", tags := [("cadence_role", "dc_redirection")] }),
  (DCRedirectionListDomainsScope, { operation := "DCRedirectionListDomains", tags := [("cadence_role", "dc_redirection")] }),
  (DCRedirectionListOpenWorkflowExecutionsScope, { operation := "DCRedirectionListOpenWorkflowExecutions", tags := [("cadence_role", "dc_redirection")] }),
  (DCRedirectionListWorkflowExecutionsScope, { operation := "DCRedirectionListWorkflowExecutions", tags := [("cadence_role", "dc_redirection")] }),
  (DCRedirectionScanWorkflowExecutionsScope, { operation := "DCRedirectionScanWorkflowExecutions", tags := [("cadence_role", "dc_redirection")] }),
  (DCRedirectionCountWorkflowExecutionsScope, { operation := "DCRedirectionCountWorkflowExecutions", tags := [("cadence_role", "dc_redirection")] }),
  (DCRedirectionGetSearchAttributesScope, { operation := "DCRedirectionGetSearchAttributes", tags := [("cadence_role", "dc_redirection")] }),
  (DCRedirectionPollForActivityTaskScope, { operation := "DCRedirectionPollForActivityTask", tags := [("cadence_role", "dc_redirection")] }),
  (DCRedirectionPollForDecisionTaskScope, { operation := "DCRedirectionPollForDecisionTask", tags := [("cadence_role", "dc_redirection")] }),
  (DCRedirectionQueryWorkflowScope, { operation := "DCRedirectionQueryWorkflow", tags := [("cadence_role", "dc_redirection")] }),
  (DCRedirectionRecordActivityTaskHeartbeatScope, { operation := "DCRedirectionRecordActivityTaskHeartbeat", tags := [("cadence_role", "dc_redirection")] }),
  (DCRedirectionRecordActivityTaskHeartbeatByIDScope, { operation := "DCRedirectionRecordActivityTaskHeartbeatByID", tags := [("cadence_role", "dc_redirection")] }),
  (DCRedirectionRegisterDomainScope, { operation := "DCRedirectionRegisterDomain", tags := [("cadence_role", "dc_redirection")] }),
  (DCRedirectionRequestCancelWorkflowExecutionScope, { operation := "DCRedirectionRequestCancelWorkflowExecution", tags := [("cadence_role", "dc_redirection")] }),
  (DCRedirectionResetStickyTaskListScope, { operation := "DCRedirectionResetStickyTaskList", tags := [("cadence_role", "dc_redirection")] }),
  (DCRedirectionResetWorkflowExecutionScope, { operation := "DCRedirectionResetWorkflowExecution", tags := [("cadence_role", "dc_redirection")] }),
  (DCRedirectionRespondActivityTaskCanceledScope, { operation := "DCRedirectionRespondActivityTaskCanceled", tags := [("cadence_role", "dc_redirection")] }),
  (DCRedirectionRespondActivityTaskCanceledByIDScope, { operation := "DCRedirectionRespondActivityTaskCanceledByID", tags := [("cadence_role", "dc_redirection")] }),
  (DCRedirectionRespondActivityTaskCompletedScope, { operation := "DCRedirectionRespondActivityTaskCompleted", tags := [("cadence_role", "dc_redirection")] }),
  (DCRedirectionRespondActivityTaskCompletedByIDScope, { operation := "DCRedirectionRespondActivityTaskCompletedByID", tags := [("cadence_role", "dc_redirection")] }),
  (DCRedirectionRespondActivityTaskFailedScope, { operation := "DCRedirectionRespondActivityTaskFailed", tags := [("cadence_role", "dc_redirection")] }),
  (DCRedirectionRespondActivityTaskFailedByIDScope, { operation := "DCRedirectionRespondActivityTaskFailedByID", tags := [("cadence_role", "dc_redirection")] })
]

def scopeDefsCommon8 : List (Nat × scopeDefinition) := [
  (DCRedirectionRespondDecisionTaskCompletedScope, { operation := "DCRedirectionRespondDecisionTaskCompleted", tags := [("cadence_role", "dc_redirection")] }),
  (DCRedirectionRespondDecisionTaskFailedScope, { operation := "DCRedirectionRespondDecisionTaskFailed", tags := [("cadence_role", "dc_redirection")] }),
  (DCRedirectionRespondQueryTaskCompletedScope, { operation := "DCRedirectionRespondQueryTaskCompleted", tags := [("cadence_role", "dc_redirection")] }),
  (DCRedirectionSignalWithStartWorkflowExecutionScope, { operation := "DCRedirectionSignalWithStartWorkflowExecution", tags := [("cadence_role", "dc_redirection")] }),
  (DCRedirectionSignalWorkflowExecutionScope, { operation := "DCRedirectionSignalWorkflowExecution", tags := [("cadence_role", "dc_redirection")] }),
  (DCRedirectionStartWorkflowExecutionScope, { operation := "DCRedirectionStartWorkflowExecution", tags := [("cadence_role", "dc_redirection")] }),
  (DCRedirectionTerminateWorkflowExecutionScope, { operation := "DCRedirectionTerminateWorkflowExecution", tags := [("cadence_role", "dc_redirection")] }),
  (DCRedirectionUpdateDomainScope, { operation := "DCRedirectionUpdateDomain", tags := [("cadence_role", "dc_redirection")] }),
  (DCRedirectionListTaskListPartitionsScope, { operation := "DCRedirectionListTaskListPartitions", tags := [("cadence_role", "dc_redirection")] }),
  (DCRedirectionGetTaskListsByDomainScope, { operation := "DCRedirectionGetTaskListsByDomain", tags := [("cadence_role", "dc_redirection")] }),
  (DCRedirectionRefreshWorkflowTasksScope, { operation := "DCRedirectionRefreshWorkflowTasks", tags := [("cadence_role", "dc_redirection")] }),
  (MessagingClientPublishScope, { operation := "MessagingClientPublish" }),
  (MessagingClientPublishBatchScope, { operation := "MessagingClientPublishBatch" }),
  (MessagingClientConsumerScope, { operation := "MessagingClientConsumerScope" }),
  (DomainCacheScope, { operation := "DomainCache" }),
  (HistoryRereplicationByTransferTaskScope, { operation := "HistoryRereplicationByTransferTask" }),
  (HistoryRereplicationByTimerTaskScope, { operation := "HistoryRereplicationByTimerTask" }),
  (HistoryRereplicationByHistoryReplicationScope, { operation := "HistoryRereplicationByHistoryReplication" }),
  (HistoryRereplicationByHistoryMetadataReplicationScope, { operation := "HistoryRereplicationByHistoryMetadataReplication" }),
  (HistoryRereplicationByActivityReplicationScope, { operation := "HistoryRereplicationByActivityReplication" }),
  (ElasticsearchRecordWorkflowExecutionStartedScope, { operation := "RecordWorkflowExecutionStarted" }),
  (ElasticsearchRecordWorkflowExecutionClosedScope, { operation := "RecordWorkflowExecutionClosed" }),
  (ElasticsearchRecordWorkflowExecutionUninitializedScope, { operation := "RecordWorkflowExecutionUninitialized" }),
  (ElasticsearchUpsertWorkflowExecutionScope, { operation := "UpsertWorkflowExecution" }),
  (ElasticsearchListOpenWorkflowExecutionsScope, { operation := "ListOpenWorkflowExecutions" }),
  (ElasticsearchListClosedWorkflowExecutionsScope, { operation := "ListClosedWorkflowExecutions" }),
  (ElasticsearchListOpenWorkflowExecutionsByTypeScope, { operation := "ListOpenWorkflowExecutionsByType" }),
  (ElasticsearchListClosedWorkflowExecutionsByTypeScope, { operation := "ListClosedWorkflowExecutionsByType" }),
  (ElasticsearchListOpenWorkflowExecutionsByWorkflowIDScope, { operation := "ListOpenWorkflowExecutionsByWorkflowID" }),
  (ElasticsearchListClosedWorkflowExecutionsByWorkflowIDScope, { operation := "ListClosedWorkflowExecutionsByWorkflowID" })
]

def scopeDefsCommon9 : List (Nat × scopeDefinition) := [
  (ElasticsearchListClosedWorkflowExecutionsByStatusScope, { operation := "ListClosedWorkflowExecutionsByStatus" }),
  (ElasticsearchGetClosedWorkflowExecutionScope, { operation := "GetClosedWorkflowExecution" }),
  (ElasticsearchListWorkflowExecutionsScope, { operation := "ListWorkflowExecutions" }),
  (ElasticsearchScanWorkflowExecutionsScope, { operation := "ScanWorkflowExecutions" }),
  (ElasticsearchCountWorkflowExecutionsScope, { operation := "CountWorkflowExecutions" }),
  (ElasticsearchDeleteWorkflowExecutionsScope, { operation := "DeleteWorkflowExecution" }),
  (SequentialTaskProcessingScope, { operation := "SequentialTaskProcessing" }),
  (ParallelTaskProcessingScope, { operation := "ParallelTaskProcessing" }),
  (TaskSchedulerScope, { operation := "TaskScheduler" }),
  (HistoryArchiverScope, { operation := "HistoryArchiver" }),
  (VisibilityArchiverScope, { operation := "VisibilityArchiver" }),
  (BlobstoreClientUploadScope, { operation := "BlobstoreClientUpload", tags := [("cadence_role", "blobstore")] }),
  (BlobstoreClientDownloadScope, { operation := "BlobstoreClientDownload", tags := [("cadence_role", "blobstore")] }),
  (BlobstoreClientGetMetadataScope, { operation := "BlobstoreClientGetMetadata", tags := [("cadence_role", "blobstore")] }),
  (BlobstoreClientExistsScope, { operation := "BlobstoreClientExists", tags := [("cadence_role", "blobstore")] }),
  (BlobstoreClientDeleteScope, { operation := "BlobstoreClientDelete", tags := [("cadence_role", "blobstore")] }),
  (BlobstoreClientDirectoryExistsScope, { operation := "BlobstoreClientDirectoryExists", tags := [("cadence_role", "blobstore")] }),
  (DomainFailoverScope, { operation := "DomainFailover" }),
  (DomainReplicationQueueScope, { operation := "DomainReplicationQueue" })
]

/-- ScopeDefs entries for the Common service, in source order. -/
def ScopeDefsCommon : List (Nat × scopeDefinition) :=
  scopeDefsCommon0 ++ scopeDefsCommon1 ++ scopeDefsCommon2 ++ scopeDefsCommon3 ++ scopeDefsCommon4 ++ scopeDefsCommon5 ++ scopeDefsCommon6 ++ scopeDefsCommon7 ++ scopeDefsCommon8 ++ scopeDefsCommon9

def scopeDefsFrontend0 : List (Nat × scopeDefinition) := [
  (AdminRemoveTaskScope, { operation := "AdminRemoveTask" }),
  (AdminCloseShardScope, { operation := "AdminCloseShard" }),
  (AdminResetQueueScope, { operation := "AdminResetQueue" }),
  (AdminDescribeQueueScope, { operation := "AdminDescribeQueue" }),
  (AdminCountDLQMessagesScope, { operation := "AdminCountDLQMessages" }),
  (AdminReadDLQMessagesScope, { operation := "AdminReadDLQMessages" }),
  (AdminPurgeDLQMessagesScope, { operation := "AdminPurgeDLQMessages" }),
  (AdminMergeDLQMessagesScope, { operation := "AdminMergeDLQMessages" }),
  (AdminDescribeHistoryHostScope, { operation := "DescribeHistoryHost" }),
  (AdminDescribeShardDistributionScope, { operation := "AdminShardList" }),
  (AdminAddSearchAttributeScope, { operation := "AddSearchAttribute" }),
  (AdminDescribeWorkflowExecutionScope, { operation := "DescribeWorkflowExecution" }),
  (AdminGetWorkflowExecutionRawHistoryScope, { operation := "GetWorkflowExecutionRawHistory" }),
  (AdminGetWorkflowExecutionRawHistoryV2Scope, { operation := "GetWorkflowExecutionRawHistoryV2" }),
  (AdminGetReplicationMessagesScope, { operation := "GetReplicationMessages" }),
  (AdminGetDomainReplicationMessagesScope, { operation := "GetDomainReplicationMessages" }),
  (AdminGetDLQReplicationMessagesScope, { operation := "AdminGetDLQReplicationMessages" }),
  (AdminReapplyEventsScope, { operation := "ReapplyEvents" }),
  (AdminRefreshWorkflowTasksScope, { operation := "RefreshWorkflowTasks" }),
  (AdminResendReplicationTasksScope, { operation := "ResendReplicationTasks" }),
  (AdminGetCrossClusterTasksScope, { operation := "AdminGetCrossClusterTasks" }),
  (AdminRespondCrossClusterTasksCompletedScope, { operation := "AdminRespondCrossClusterTasksCompleted" }),
  (AdminGetDynamicConfigScope, { operation := "AdminGetDynamicConfig" }),
  (AdminUpdateDynamicConfigScope, { operation := "AdminUpdateDynamicConfig" }),
  (AdminRestoreDynamicConfigScope, { operation := "AdminRestoreDynamicConfig" }),
  (AdminListDynamicConfigScope, { operation := "AdminListDynamicConfig" }),
  (AdminDeleteWorkflowScope, { operation := "AdminDeleteWorkflow" }),
  (MaintainCorruptWorkflowScope, { operation := "MaintainCorruptWorkflow" }),
  (FrontendRestartWorkflowExecutionScope, { operation := "RestartWorkflowExecution" }),
  (FrontendStartWorkflowExecutionScope, { operation := "StartWorkflowExecution" })
]

def scopeDefsFrontend1 : List (Nat × scopeDefinition) := [
  (FrontendPollForDecisionTaskScope, { operation := "PollForDecisionTask" }),
  (FrontendPollForActivityTaskScope, { operation := "PollForActivityTask" }),
  (FrontendRecordActivityTaskHeartbeatScope, { operation := "RecordActivityTaskHeartbeat" }),
  (FrontendRecordActivityTaskHeartbeatByIDScope, { operation := "RecordActivityTaskHeartbeatByID" }),
  (FrontendRespondDecisionTaskCompletedScope, { operation := "RespondDecisionTaskCompleted" }),
  (FrontendRespondDecisionTaskFailedScope, { operation := "RespondDecisionTaskFailed" }),
  (FrontendRespondQueryTaskCompletedScope, { operation := "RespondQueryTaskCompleted" }),
  (FrontendRespondActivityTaskCompletedScope, { operation := "RespondActivityTaskCompleted" }),
  (FrontendRespondActivityTaskFailedScope, { operation := "RespondActivityTaskFailed" }),
  (FrontendRespondActivityTaskCanceledScope, { operation := "RespondActivityTaskCanceled" }),
  (FrontendRespondActivityTaskCompletedByIDScope, { operation := "RespondActivityTaskCompletedByID" }),
  (FrontendRespondActivityTaskFailedByIDScope, { operation := "RespondActivityTaskFailedByID" }),
  (FrontendRespondActivityTaskCanceledByIDScope, { operation := "RespondActivityTaskCanceledByID" }),
  (FrontendGetWorkflowExecutionHistoryScope, { operation := "GetWorkflowExecutionHistory" }),
  (FrontendGetWorkflowExecutionRawHistoryScope, { operation := "GetWorkflowExecutionRawHistory" }),
  (FrontendPollForWorklfowExecutionRawHistoryScope, { operation := "PollForWorklfowExecutionRawHistory" }),
  (FrontendSignalWorkflowExecutionScope, { operation := "SignalWorkflowExecution" }),
  (FrontendSignalWithStartWorkflowExecutionScope, { operation := "SignalWithStartWorkflowExecution" }),
  (FrontendTerminateWorkflowExecutionScope, { operation := "TerminateWorkflowExecution" }),
  (FrontendResetWorkflowExecutionScope, { operation := "ResetWorkflowExecution" }),
  (FrontendRequestCancelWorkflowExecutionScope, { operation := "RequestCancelWorkflowExecution" }),
  (FrontendListArchivedWorkflowExecutionsScope, { operation := "ListArchivedWorkflowExecutions" }),
  (FrontendListOpenWorkflowExecutionsScope, { operation := "ListOpenWorkflowExecutions" }),
  (FrontendListClosedWorkflowExecutionsScope, { operation := "ListClosedWorkflowExecutions" }),
  (FrontendListWorkflowExecutionsScope, { operation := "ListWorkflowExecutions" }),
  (FrontendScanWorkflowExecutionsScope, { operation := "ScanWorkflowExecutions" }),
  (FrontendCountWorkflowExecutionsScope, { operation := "CountWorkflowExecutions" }),
  (FrontendRegisterDomainScope, { operation := "RegisterDomain" }),
  (FrontendDescribeDomainScope, { operation := "DescribeDomain" }),
  (FrontendListDomainsScope, { operation := "ListDomain" })
]

def scopeDefsFrontend2 : List (Nat × scopeDefinition) := [
  (FrontendUpdateDomainScope, { operation := "UpdateDomain" }),
  (FrontendDeprecateDomainScope, { operation := "DeprecateDomain" }),
  (FrontendQueryWorkflowScope, { operation := "QueryWorkflow" }),
  (FrontendDescribeWorkflowExecutionScope, { operation := "DescribeWorkflowExecution" }),
  (FrontendListTaskListPartitionsScope, { operation := "FrontendListTaskListPartitions" }),
  (FrontendGetTaskListsByDomainScope, { operation := "FrontendGetTaskListsByDomain" }),
  (FrontendRefreshWorkflowTasksScope, { operation := "FrontendRefreshWorkflowTasks" }),
  (FrontendDescribeTaskListScope, { operation := "DescribeTaskList" }),
  (FrontendResetStickyTaskListScope, { operation := "ResetStickyTaskList" }),
  (FrontendGetSearchAttributesScope, { operation := "GetSearchAttributes" })
]

/-- ScopeDefs entries for the Frontend service, in source order. -/
def ScopeDefsFrontend : List (Nat × scopeDefinition) :=
  scopeDefsFrontend0 ++ scopeDefsFrontend1 ++ scopeDefsFrontend2

def scopeDefsHistory0 : List (Nat × scopeDefinition) := [
  (HistoryStartWorkflowExecutionScope, { operation := "StartWorkflowExecution" }),
  (HistoryRecordActivityTaskHeartbeatScope, { operation := "RecordActivityTaskHeartbeat" }),
  (HistoryRespondDecisionTaskCompletedScope, { operation := "RespondDecisionTaskCompleted" }),
  (HistoryRespondDecisionTaskFailedScope, { operation := "RespondDecisionTaskFailed" }),
  (HistoryRespondActivityTaskCompletedScope, { operation := "RespondActivityTaskCompleted" }),
  (HistoryRespondActivityTaskFailedScope, { operation := "RespondActivityTaskFailed" }),
  (HistoryRespondActivityTaskCanceledScope, { operation := "RespondActivityTaskCanceled" }),
  (HistoryResetQueueScope, { operation := "ResetQueue" }),
  (HistoryDescribeQueueScope, { operation := "DescribeQueue" }),
  (HistoryDescribeMutabelStateScope, { operation := "DescribeMutableState" }),
  (HistoryGetMutableStateScope, { operation := "GetMutableState" }),
  (HistoryPollMutableStateScope, { operation := "PollMutableState" }),
  (HistoryResetStickyTaskListScope, { operation := "ResetStickyTaskListScope" }),
  (HistoryDescribeWorkflowExecutionScope, { operation := "DescribeWorkflowExecution" }),
  (HistoryRecordDecisionTaskStartedScope, { operation := "RecordDecisionTaskStarted" }),
  (HistoryRecordActivityTaskStartedScope, { operation := "RecordActivityTaskStarted" }),
  (HistorySignalWorkflowExecutionScope, { operation := "SignalWorkflowExecution" }),
  (HistorySignalWithStartWorkflowExecutionScope, { operation := "SignalWithStartWorkflowExecution" }),
  (HistoryRemoveSignalMutableStateScope, { operation := "RemoveSignalMutableState" }),
  (HistoryTerminateWorkflowExecutionScope, { operation := "TerminateWorkflowExecution" }),
  (HistoryResetWorkflowExecutionScope, { operation := "ResetWorkflowExecution" }),
  (HistoryQueryWorkflowScope, { operation := "QueryWorkflow" }),
  (HistoryProcessDeleteHistoryEventScope, { operation := "ProcessDeleteHistoryEvent" }),
  (HistoryScheduleDecisionTaskScope, { operation := "ScheduleDecisionTask" }),
  (HistoryRecordChildExecutionCompletedScope, { operation := "RecordChildExecutionCompleted" }),
  (HistoryRequestCancelWorkflowExecutionScope, { operation := "RequestCancelWorkflowExecution" }),
  (HistoryReplicateEventsScope, { operation := "ReplicateEvents" }),
  (HistoryReplicateRawEventsScope, { operation := "ReplicateRawEvents" }),
  (HistoryReplicateEventsV2Scope, { operation := "ReplicateEventsV2" }),
  (HistorySyncShardStatusScope, { operation := "SyncShardStatus" })
]

def scopeDefsHistory1 : List (Nat × scopeDefinition) := [
  (HistorySyncActivityScope, { operation := "SyncActivity" }),
  (HistoryDescribeMutableStateScope, { operation := "DescribeMutableState" }),
  (HistoryGetReplicationMessagesScope, { operation := "GetReplicationMessages" }),
  (HistoryGetDLQReplicationMessagesScope, { operation := "GetDLQReplicationMessages" }),
  (HistoryCountDLQMessagesScope, { operation := "CountDLQMessages" }),
  (HistoryReadDLQMessagesScope, { operation := "ReadDLQMessages" }),
  (HistoryPurgeDLQMessagesScope, { operation := "PurgeDLQMessages" }),
  (HistoryMergeDLQMessagesScope, { operation := "MergeDLQMessages" }),
  (HistoryShardControllerScope, { operation := "ShardController" }),
  (HistoryReapplyEventsScope, { operation := "EventReapplication" }),
  (HistoryRefreshWorkflowTasksScope, { operation := "RefreshWorkflowTasks" }),
  (HistoryNotifyFailoverMarkersScope, { operation := "NotifyFailoverMarkers" }),
  (HistoryGetCrossClusterTasksScope, { operation := "GetCrossClusterTasks" }),
  (HistoryRespondCrossClusterTasksCompletedScope, { operation := "RespondCrossClusterTasksCompleted" }),
  (HistoryGetFailoverInfoScope, { operation := "GetFailoverInfo" }),
  (TaskPriorityAssignerScope, { operation := "TaskPriorityAssigner" }),
  (TransferQueueProcessorScope, { operation := "TransferQueueProcessor" }),
  (TransferActiveQueueProcessorScope, { operation := "TransferActiveQueueProcessor" }),
  (TransferStandbyQueueProcessorScope, { operation := "TransferStandbyQueueProcessor" }),
  (TransferActiveTaskActivityScope, { operation := "TransferActiveTaskActivity" }),
  (TransferActiveTaskDecisionScope, { operation := "TransferActiveTaskDecision" }),
  (TransferActiveTaskCloseExecutionScope, { operation := "TransferActiveTaskCloseExecution" }),
  (TransferActiveTaskCancelExecutionScope, { operation := "TransferActiveTaskCancelExecution" }),
  (TransferActiveTaskSignalExecutionScope, { operation := "TransferActiveTaskSignalExecution" }),
  (TransferActiveTaskStartChildExecutionScope, { operation := "TransferActiveTaskStartChildExecution" }),
  (TransferActiveTaskRecordWorkflowStartedScope, { operation := "TransferActiveTaskRecordWorkflowStarted" }),
  (TransferActiveTaskResetWorkflowScope, { operation := "TransferActiveTaskResetWorkflow" }),
  (TransferActiveTaskUpsertWorkflowSearchAttributesScope, { operation := "TransferActiveTaskUpsertWorkflowSearchAttributes" }),
  (TransferActiveTaskRecordWorkflowClosedScope, { operation := "TransferActiveTaskRecordWorkflowClosed" }),
  (TransferActiveTaskRecordChildExecutionCompletedScope, { operation := "TransferActiveTaskRecordChildExecutionCompleted" })
]

def scopeDefsHistory2 : List (Nat × scopeDefinition) := [
  (TransferActiveTaskApplyParentClosePolicyScope, { operation := "TransferActiveTaskApplyParentClosePolicy" }),
  (TransferStandbyTaskActivityScope, { operation := "TransferStandbyTaskActivity" }),
  (TransferStandbyTaskDecisionScope, { operation := "TransferStandbyTaskDecision" }),
  (TransferStandbyTaskCloseExecutionScope, { operation := "TransferStandbyTaskCloseExecution" }),
  (TransferStandbyTaskCancelExecutionScope, { operation := "TransferStandbyTaskCancelExecution" }),
  (TransferStandbyTaskSignalExecutionScope, { operation := "TransferStandbyTaskSignalExecution" }),
  (TransferStandbyTaskStartChildExecutionScope, { operation := "TransferStandbyTaskStartChildExecution" }),
  (TransferStandbyTaskRecordWorkflowStartedScope, { operation := "TransferStandbyTaskRecordWorkflowStarted" }),
  (TransferStandbyTaskResetWorkflowScope, { operation := "TransferStandbyTaskResetWorkflow" }),
  (TransferStandbyTaskUpsertWorkflowSearchAttributesScope, { operation := "TransferStandbyTaskUpsertWorkflowSearchAttributes" }),
  (TransferStandbyTaskRecordWorkflowClosedScope, { operation := "TransferStandbyTaskRecordWorkflowClosed" }),
  (TransferStandbyTaskRecordChildExecutionCompletedScope, { operation := "TransferStandbyTaskRecordChildExecutionCompleted" }),
  (TransferStandbyTaskApplyParentClosePolicyScope, { operation := "TransferStandbyTaskApplyParentClosePolicy" }),
  (TimerQueueProcessorScope, { operation := "TimerQueueProcessor" }),
  (TimerActiveQueueProcessorScope, { operation := "TimerActiveQueueProcessor" }),
  (TimerStandbyQueueProcessorScope, { operation := "TimerStandbyQueueProcessor" }),
  (TimerActiveTaskActivityTimeoutScope, { operation := "TimerActiveTaskActivityTimeout" }),
  (TimerActiveTaskDecisionTimeoutScope, { operation := "TimerActiveTaskDecisionTimeout" }),
  (TimerActiveTaskUserTimerScope, { operation := "TimerActiveTaskUserTimer" }),
  (TimerActiveTaskWorkflowTimeoutScope, { operation := "TimerActiveTaskWorkflowTimeout" }),
  (TimerActiveTaskActivityRetryTimerScope, { operation := "TimerActiveTaskActivityRetryTimer" }),
  (TimerActiveTaskWorkflowBackoffTimerScope, { operation := "TimerActiveTaskWorkflowBackoffTimer" }),
  (TimerActiveTaskDeleteHistoryEventScope, { operation := "TimerActiveTaskDeleteHistoryEvent" }),
  (TimerStandbyTaskActivityTimeoutScope, { operation := "TimerStandbyTaskActivityTimeout" }),
  (TimerStandbyTaskDecisionTimeoutScope, { operation := "TimerStandbyTaskDecisionTimeout" }),
  (TimerStandbyTaskUserTimerScope, { operation := "TimerStandbyTaskUserTimer" }),
  (TimerStandbyTaskWorkflowTimeoutScope, { operation := "TimerStandbyTaskWorkflowTimeout" }),
  (TimerStandbyTaskActivityRetryTimerScope, { operation := "TimerStandbyTaskActivityRetryTimer" }),
  (TimerStandbyTaskWorkflowBackoffTimerScope, { operation := "TimerStandbyTaskWorkflowBackoffTimer" }),
  (TimerStandbyTaskDeleteHistoryEventScope, { operation := "TimerStandbyTaskDeleteHistoryEvent" })
]

def scopeDefsHistory3 : List (Nat × scopeDefinition) := [
  (CrossClusterQueueProcessorScope, { operation := "CrossClusterQueueProcessor" }),
  (CrossClusterTaskProcessorScope, { operation := "CrossClusterTaskProcessor" }),
  (CrossClusterTaskFetcherScope, { operation := "CrossClusterTaskFetcher" }),
  (CrossClusterSourceTaskStartChildExecutionScope, { operation := "CrossClusterSourceTaskStartChildExecution" }),
  (CrossClusterSourceTaskCancelExecutionScope, { operation := "CrossClusterSourceTaskCancelExecution" }),
  (CrossClusterSourceTaskSignalExecutionScope, { operation := "CrossClusterSourceTaskSignalExecution" }),
  (CrossClusterSourceTaskRecordChildWorkflowExecutionCompleteScope, { operation := "CrossClusterSourceTaskTypeRecordChildWorkflowExecutionComplete" }),
  (CrossClusterSourceTaskApplyParentClosePolicyScope, { operation := "CrossClusterSourceTaskTypeApplyParentClosePolicy" }),
  (CrossClusterTargetTaskStartChildExecutionScope, { operation := "CrossClusterTargetTaskStartChildExecution" }),
  (CrossClusterTargetTaskCancelExecutionScope, { operation := "CrossClusterTargetTaskCancelExecution" }),
  (CrossClusterTargetTaskSignalExecutionScope, { operation := "CrossClusterTargetTaskSignalExecution" }),
  (CrossClusterTargetTaskRecordChildWorkflowExecutionCompleteScope, { operation := "CrossClusterTargetTaskTypeRecordChildWorkflowExecutionComplete" }),
  (CrossClusterTargetTaskApplyParentClosePolicyScope, { operation := "CrossClusterTargetTaskTypeApplyParentClosePolicy" }),
  (HistoryEventNotificationScope, { operation := "HistoryEventNotification" }),
  (ReplicatorQueueProcessorScope, { operation := "ReplicatorQueueProcessor" }),
  (ReplicatorCacheManagerScope, { operation := "ReplicatorCacheManager" }),
  (ReplicatorTaskHistoryScope, { operation := "ReplicatorTaskHistory" }),
  (ReplicatorTaskSyncActivityScope, { operation := "ReplicatorTaskSyncActivity" }),
  (ReplicateHistoryEventsScope, { operation := "ReplicateHistoryEvents" }),
  (ReplicationMetricEmitterScope, { operation := "ReplicationMetricEmitter" }),
  (ShardInfoScope, { operation := "ShardInfo" }),
  (WorkflowContextScope, { operation := "WorkflowContext" }),
  (HistoryCacheGetAndCreateScope, { operation := "HistoryCacheGetAndCreate", tags := [("cache_type", "mutablestate")] }),
  (HistoryCacheGetOrCreateScope, { operation := "HistoryCacheGetOrCreate", tags := [("cache_type", "mutablestate")] }),
  (HistoryCacheGetOrCreateCurrentScope, { operation := "HistoryCacheGetOrCreateCurrent", tags := [("cache_type", "mutablestate")] }),
  (HistoryCacheGetCurrentExecutionScope, { operation := "HistoryCacheGetCurrentExecution", tags := [("cache_type", "mutablestate")] }),
  (EventsCacheGetEventScope, { operation := "EventsCacheGetEvent", tags := [("cache_type", "events")] }),
  (EventsCachePutEventScope, { operation := "EventsCachePutEvent", tags := [("cache_type", "events")] }),
  (EventsCacheGetFromStoreScope, { operation := "EventsCacheGetFromStore", tags := [("cache_type", "events")] }),
  (ExecutionSizeStatsScope, { operation := "ExecutionStats", tags := [("stats_type", "size")] })
]

def scopeDefsHistory4 : List (Nat × scopeDefinition) := [
  (ExecutionCountStatsScope, { operation := "ExecutionStats", tags := [("stats_type", "count")] }),
  (SessionSizeStatsScope, { operation := "SessionStats", tags := [("stats_type", "size")] }),
  (SessionCountStatsScope, { operation := "SessionStats", tags := [("stats_type", "count")] }),
  (WorkflowCompletionStatsScope, { operation := "CompletionStats", tags := [("stats_type", "count")] }),
  (ArchiverClientScope, { operation := "ArchiverClient" }),
  (ReplicationTaskFetcherScope, { operation := "ReplicationTaskFetcher" }),
  (ReplicationTaskCleanupScope, { operation := "ReplicationTaskCleanup" }),
  (ReplicationDLQStatsScope, { operation := "ReplicationDLQStats" }),
  (FailoverMarkerScope, { operation := "FailoverMarker" }),
  (HistoryReplicationV2TaskScope, { operation := "HistoryReplicationV2Task" }),
  (SyncActivityTaskScope, { operation := "SyncActivityTask" })
]

/-- ScopeDefs entries for the History service, in source order. -/
def ScopeDefsHistory : List (Nat × scopeDefinition) :=
  scopeDefsHistory0 ++ scopeDefsHistory1 ++ scopeDefsHistory2 ++ scopeDefsHistory3 ++ scopeDefsHistory4

def scopeDefsMatching0 : List (Nat × scopeDefinition) := [
  (MatchingPollForDecisionTaskScope, { operation := "PollForDecisionTask" }),
  (MatchingPollForActivityTaskScope, { operation := "PollForActivityTask" }),
  (MatchingAddActivityTaskScope, { operation := "AddActivityTask" }),
  (MatchingAddDecisionTaskScope, { operation := "AddDecisionTask" }),
  (MatchingTaskListMgrScope, { operation := "TaskListMgr" }),
  (MatchingQueryWorkflowScope, { operation := "QueryWorkflow" }),
  (MatchingRespondQueryTaskCompletedScope, { operation := "RespondQueryTaskCompleted" }),
  (MatchingCancelOutstandingPollScope, { operation := "CancelOutstandingPoll" }),
  (MatchingDescribeTaskListScope, { operation := "DescribeTaskList" }),
  (MatchingListTaskListPartitionsScope, { operation := "ListTaskListPartitions" }),
  (MatchingGetTaskListsByDomainScope, { operation := "GetTaskListsByDomain" })
]

/-- ScopeDefs entries for the Matching service, in source order. -/
def ScopeDefsMatching : List (Nat × scopeDefinition) :=
  scopeDefsMatching0

def scopeDefsWorker0 : List (Nat × scopeDefinition) := [
  (ReplicatorScope, { operation := "Replicator" }),
  (DomainReplicationTaskScope, { operation := "DomainReplicationTask" }),
  (ESProcessorScope, { operation := "ESProcessor" }),
  (IndexProcessorScope, { operation := "IndexProcessor" }),
  (ArchiverDeleteHistoryActivityScope, { operation := "ArchiverDeleteHistoryActivity" }),
  (ArchiverUploadHistoryActivityScope, { operation := "ArchiverUploadHistoryActivity" }),
  (ArchiverArchiveVisibilityActivityScope, { operation := "ArchiverArchiveVisibilityActivity" }),
  (ArchiverScope, { operation := "Archiver" }),
  (ArchiverPumpScope, { operation := "ArchiverPump" }),
  (ArchiverArchivalWorkflowScope, { operation := "ArchiverArchivalWorkflow" }),
  (TaskListScavengerScope, { operation := "tasklistscavenger" }),
  (ExecutionsScannerScope, { operation := "ExecutionsScanner" }),
  (ShardScannerScope, { operation := "ShardScanner" }),
  (CheckDataCorruptionWorkflowScope, { operation := "CheckDataCorruptionWorkflow" }),
  (ExecutionsFixerScope, { operation := "ExecutionsFixer" }),
  (HistoryScavengerScope, { operation := "historyscavenger" }),
  (BatcherScope, { operation := "batcher" }),
  (ParentClosePolicyProcessorScope, { operation := "ParentClosePolicyProcessor" }),
  (ESAnalyzerScope, { operation := "ESAnalyzer" }),
  (WatchDogScope, { operation := "WatchDog" })
]

/-- ScopeDefs entries for the Worker service, in source order. -/
def ScopeDefsWorker : List (Nat × scopeDefinition) :=
  scopeDefsWorker0

/-- ScopeDefs record the scopes for all services (Go map from ServiceIdx to a
map of scope index to scopeDefinition); service indices outside the five
declared ones have no entries. -/
def ScopeDefs : Nat → List (Nat × scopeDefinition)
  | 0 => ScopeDefsCommon
  | 1 => ScopeDefsFrontend
  | 2 => ScopeDefsHistory
  | 3 => ScopeDefsMatching
  | 4 => ScopeDefsWorker
  | _ => []

/-- Lookup of a scope index in a service's scope-definition table
(Go map indexing). -/
def lookupScope : List (Nat × scopeDefinition) → Nat → Option scopeDefinition
  | [], _ => none
  | (key, d) :: rest, k => if key = k then some d else lookupScope rest k

/-- Bool check that every scope index in [base, base+n) has an entry in the
given table. -/
def coversRange (m : List (Nat × scopeDefinition)) (base n : Nat) : Bool :=
  (List.range n).all fun i => (lookupScope m (base + i)).isSome


/-- Daemon lifecycle status values (constants DaemonStatusInitialized,
DaemonStatusStarted, DaemonStatusStopped of the common package, stored in the
int32 status field of Impl). -/
inductive DaemonStatus where
  | initialized
  | started
  | stopped
deriving DecidableEq

/-- Host identity returned by the membership resolver (membership.HostInfo);
modelled by its address. -/
structure HostInfo where
  addr : String
deriving DecidableEq

/-- The Go zero value of membership.HostInfo. -/
def zeroHostInfo : HostInfo := { addr := "" }

/-- Modelled from the spec: the retry policy objects built by
common.CreateFrontendServiceRetryPolicy, common.CreateMatchingServiceRetryPolicy
and common.CreateHistoryServiceRetryPolicy (the common package is not under
src/); the spec describes them as service-specific policy objects, so they are
modelled as three distinct constants. -/
inductive RetryPolicy where
  | frontendServiceRetryPolicy
  | matchingServiceRetryPolicy
  | historyServiceRetryPolicy
deriving DecidableEq

/-- Modelled from the spec: the transient-error predicate
common.IsServiceTransientError passed to the retry decorators (the common
package is not under src/). -/
inductive ErrorPredicate where
  | isServiceTransientError
deriving DecidableEq

/-- Modelled from the spec: an RPC client value. A raw client comes from the
client bean; frontend.NewRetryableClient, matching.NewRetryableClient and
history.NewRetryableClient (client packages, not under src/) are described by
the spec as decorators wrapping a raw client with a retry policy and a
retryable-error predicate, so they are modelled by the retryable constructor. -/
inductive Client where
  | raw (service : String)
  | retryable (inner : Client) (policy : RetryPolicy) (isRetryable : ErrorPredicate)
deriving DecidableEq

/-- The client bean's peer-service clients consumed by New
(clientBean.GetFrontendClient, GetMatchingClient, GetHistoryClient). -/
structure ClientBean where
  frontendClient : Client
  matchingClient : Client
  historyClient : Client
deriving DecidableEq

/-- The side effects performed by Start after a successful status CAS, in
source order (Start in resourceImpl.go). -/
def startSideEffects : List String :=
  ["metricsScope.Counter(RestartCount).Inc", "runtimeMetricsReporter.Start",
   "pprofInitializer.Start", "dispatcher.Start", "membershipResolver.Start",
   "domainCache.Start", "domainMetricsScopeCache.Start"]

/-- The side effects performed by Stop after a successful status CAS, in
source order (Stop in resourceImpl.go). -/
def stopSideEffects : List String :=
  ["domainCache.Stop", "domainMetricsScopeCache.Stop", "membershipResolver.Stop",
   "dispatcher.Stop", "runtimeMetricsReporter.Stop", "persistenceBean.Close"]

/-- The fields of the resource container Impl relevant to its lifecycle, host
info and peer-service clients, plus a log of performed side effects. -/
structure Impl where
  status : DaemonStatus
  hostInfo : HostInfo
  frontendRawClient : Client
  frontendClient : Client
  matchingRawClient : Client
  matchingClient : Client
  historyRawClient : Client
  historyClient : Client
  effects : List String
deriving DecidableEq

/-- New (resourceImpl.go): takes the bean's clients as the raw clients, wraps
each in a retryable decorator with its service-specific retry policy and
common.IsServiceTransientError, and initializes status to
DaemonStatusInitialized. The hostInfo field is not assigned in the struct
literal, so it keeps the Go zero value. -/
def newImpl (bean : ClientBean) : Impl :=
  let frontendRawClient := bean.frontendClient
  let frontendClient := Client.retryable frontendRawClient
    RetryPolicy.frontendServiceRetryPolicy ErrorPredicate.isServiceTransientError
  let matchingRawClient := bean.matchingClient
  let matchingClient := Client.retryable matchingRawClient
    RetryPolicy.matchingServiceRetryPolicy ErrorPredicate.isServiceTransientError
  let historyRawClient := bean.historyClient
  let historyClient := Client.retryable historyRawClient
    RetryPolicy.historyServiceRetryPolicy ErrorPredicate.isServiceTransientError
  { status := DaemonStatus.initialized
    hostInfo := zeroHostInfo
    frontendRawClient := frontendRawClient
    frontendClient := frontendClient
    matchingRawClient := matchingRawClient
    matchingClient := matchingClient
    historyRawClient := historyRawClient
    historyClient := historyClient
    effects := [] }

/-- Start (resourceImpl.go): compare-and-swap the status from Initialized to
Started; on CAS failure return immediately with no side effect. Otherwise
perform the start side effects, then query the membership resolver WhoAmI and
assign hostInfo; a WhoAmI error is Fatal (modelled as none, the process dies). -/
def start (whoAmI : Except String HostInfo) (h : Impl) : Option Impl :=
  if h.status = DaemonStatus.initialized then
    match whoAmI with
    | Except.error _ => none
    | Except.ok info =>
        some { h with status := DaemonStatus.started
                      hostInfo := info
                      effects := h.effects ++ startSideEffects }
  else some h

/-- Stop (resourceImpl.go): compare-and-swap the status from Started to
Stopped; on CAS failure return immediately with no side effect; otherwise
perform the stop side effects. -/
def stop (h : Impl) : Impl :=
  if h.status = DaemonStatus.started then
    { h with status := DaemonStatus.stopped, effects := h.effects ++ stopSideEffects }
  else h

/-- GetHostInfo (resourceImpl.go). -/
def Impl.GetHostInfo (h : Impl) : HostInfo := h.hostInfo

/-- GetFrontendRawClient (resourceImpl.go): frontend client without retry policy. -/
def Impl.GetFrontendRawClient (h : Impl) : Client := h.frontendRawClient

/-- GetFrontendClient (resourceImpl.go): frontend client with retry policy. -/
def Impl.GetFrontendClient (h : Impl) : Client := h.frontendClient

/-- GetMatchingRawClient (resourceImpl.go): matching client without retry policy. -/
def Impl.GetMatchingRawClient (h : Impl) : Client := h.matchingRawClient

/-- GetMatchingClient (resourceImpl.go): matching client with retry policy. -/
def Impl.GetMatchingClient (h : Impl) : Client := h.matchingClient

/-- GetHistoryRawClient (resourceImpl.go): history client without retry policy. -/
def Impl.GetHistoryRawClient (h : Impl) : Client := h.historyRawClient

/-- GetHistoryClient (resourceImpl.go): history client with retry policy. -/
def Impl.GetHistoryClient (h : Impl) : Client := h.historyClient

/-- A concrete client bean used by witnesses. -/
def bean0 : ClientBean :=
  { frontendClient := Client.raw "frontend"
    matchingClient := Client.raw "matching"
    historyClient := Client.raw "history" }

/-- The container state after a successful Start of the fresh container with
WhoAmI answering host h1; used by witnesses. -/
def impl1 : Impl :=
  { newImpl bean0 with
    status := DaemonStatus.started
    hostInfo := { addr := "h1" }
    effects := startSideEffects }

/-- Modelled from the spec: the ack tracking state of one processing queue for
a shard, category and role (the ProcessingQueue implementation is not under
src/). pending holds the task IDs inside this queue's domain filter in
ascending order, all above the ack level; completed records the IDs reported
complete by the task scheduler. -/
structure AckState where
  ackLevel : Nat
  pending : List Nat
  completed : List Nat
deriving DecidableEq

/-- Well-formedness kept by the queue processor: pending IDs are strictly
ascending and above the ack level. -/
def AckState.wf (s : AckState) : Prop :=
  s.pending.Sorted (· < ·) ∧ ∀ t ∈ s.pending, s.ackLevel < t

/-- Modelled from the spec: "Ack level only advances to the highest taskID such
that all tasks with smaller IDs in this queue's filter have completed (no
gaps)". Walks the pending IDs in ascending order, advancing past every
completed task and stopping at the first uncompleted one. -/
def advanceFrom (completed : List Nat) : Nat → List Nat → Nat
  | ack, [] => ack
  | ack, t :: rest => if t ∈ completed then advanceFrom completed t rest else ack

/-- Modelled from the spec: UpdateAckLevel recomputes the ack level from the
completed set and range-deletes the acknowledged tasks. -/
def updateAckLevel (s : AckState) : AckState :=
  let newAck := advanceFrom s.completed s.ackLevel s.pending
  { ackLevel := newAck
    pending := s.pending.filter (fun t => decide (newAck < t))
    completed := s.completed }

/-- Modelled from the spec: the completion callback for task t records the
completion and recomputes the ack level. -/
def completeTask (s : AckState) (t : Nat) : AckState :=
  updateAckLevel { s with completed := s.completed ++ [t] }

/-- Modelled from the spec: a sequence of completion callbacks applied in
order. -/
def runCompletions (s : AckState) (ts : List Nat) : AckState :=
  ts.foldl completeTask s

/-- Modelled from the spec: exponential retry backoff of the task scheduler:
base delay × 2^attempt, capped at the configured maximum (the random jitter
the spec adds on top of this deterministic delay is not modelled). -/
def backoffDelay (base cap attempt : Nat) : Nat := min (base * 2 ^ attempt) cap

/-- Modelled from the spec: what the scheduler decides after one failed
execution: re-submit with the next attempt number, or report the item failed
to the caller. -/
inductive RetryDecision where
  | resubmit (nextAttempt : Nat)
  | reportFailed
deriving DecidableEq

/-- Modelled from the spec: on a retryable execution error with the attempt
count below the ceiling the item is re-submitted with attempt+1; on a
non-retryable error or when the attempt ceiling is exceeded the item is
reported failed. -/
def handleFailure (retryable : Bool) (attempt maxAttempts : Nat) : RetryDecision :=
  if retryable ∧ attempt < maxAttempts then RetryDecision.resubmit (attempt + 1)
  else RetryDecision.reportFailed

/-- Modelled from the spec: the re-submission trace of an item whose execution
always fails with a retryable error, driven by handleFailure; fuel bounds the
recursion and is chosen at least maxAttempts - attempt. Returns the attempt
numbers carried by the re-submissions. -/
def failingRun (maxAttempts : Nat) : Nat → Nat → List Nat
  | _, 0 => []
  | attempt, fuel + 1 =>
      match handleFailure true attempt maxAttempts with
      | RetryDecision.resubmit next => next :: failingRun maxAttempts next fuel
      | RetryDecision.reportFailed => []

/-- Modelled from the spec: a DLQ entry: the task reference plus failure
details (the DLQ manager implementation is not under src/). -/
structure DLQEntry where
  taskID : Nat
  failureReason : String
deriving DecidableEq

/-- Modelled from the spec: enqueueing to the DLQ is effectively at-least-once:
a plain append, duplicate entries for the same task acceptable. -/
def enqueueDLQ (dlq : List DLQEntry) (e : DLQEntry) : List DLQEntry := dlq ++ [e]

/-- Modelled from the spec: read-side deduplication by taskID, keeping the
first entry seen for each ID; seen accumulates the IDs already returned. -/
def dedupRead : List DLQEntry → List Nat → List DLQEntry
  | [], _ => []
  | e :: rest, seen =>
      if e.taskID ∈ seen then dedupRead rest seen
      else e :: dedupRead rest (e.taskID :: seen)

/-- Modelled from the spec: ProcessingQueueState: the acknowledged level, the
farthest observed level and the domain filter restricting which domains the
queue handles (the processing-queue implementation is not under src/). -/
structure PQState where
  ackLevel : Nat
  maxLevel : Nat
  domainFilter : Finset Nat
deriving DecidableEq

/-- Modelled from the spec: splitting isolates a chosen domain set out of the
queue's filter: the first part handles the filter's domains inside the chosen
set, the second part the rest; both keep the queue's level range. -/
def splitQueue (q : PQState) (s : Finset Nat) : PQState × PQState :=
  ({ q with domainFilter := q.domainFilter ∩ s },
   { q with domainFilter := q.domainFilter \ s })

/-- Modelled from the spec: two queues are merged exactly when their ack
levels coincide; the merged queue covers both filters and the farthest max
level. -/
def mergeQueues (q1 q2 : PQState) : Option PQState :=
  if q1.ackLevel = q2.ackLevel then
    some { ackLevel := q1.ackLevel
           maxLevel := max q1.maxLevel q2.maxLevel
           domainFilter := q1.domainFilter ∪ q2.domainFilter }
  else none

/-- Modelled from the spec: the partition invariant for the live queues of one
shard, category and role: their domain filters are pairwise disjoint and
together cover the universal domain set. -/
def filtersPartition (fs : List (Finset Nat)) (u : Finset Nat) : Prop :=
  fs.Pairwise (fun a b => Disjoint a b) ∧ fs.foldr (fun a b => a ∪ b) ∅ = u

/-- Modelled from the spec: the persisted shard record: owning host identity
and the rangeID fencing token, monotonically increasing on every acquire
(ShardInfo; the shard controller implementation is not under src/). -/
structure ShardRecord where
  owner : String
  rangeID : Nat
deriving DecidableEq

/-- Modelled from the spec: AcquireShard reads the current ShardInfo,
increments the rangeID and conditionally writes it back; the conditional write
fails when the expected rangeID is stale (another owner already advanced it). -/
def acquireShard (store : ShardRecord) (host : String) (expectedRangeID : Nat) :
    Option ShardRecord :=
  if expectedRangeID = store.rangeID then
    some { owner := host, rangeID := store.rangeID + 1 }
  else none

/-- Modelled from the spec: a conditional persistence write carrying a rangeID
token is accepted only when the token matches the current record (optimistic
fencing). -/
def conditionalWriteOK (store : ShardRecord) (tokenRangeID : Nat) : Bool :=
  tokenRangeID == store.rangeID

/-- Modelled from the spec: one acquire attempt (host, expected token) applied
to the store; a failed attempt leaves the record unchanged. -/
def applyAcquire (store : ShardRecord) (op : String × Nat) : ShardRecord :=
  match acquireShard store op.1 op.2 with
  | some r => r
  | none => store

/-- Modelled from the spec: the successive shard records along a run of
acquire attempts from any hosts. -/
def acquireTrace (store : ShardRecord) : List (String × Nat) → List ShardRecord
  | [] => [store]
  | op :: ops => store :: acquireTrace (applyAcquire store op) ops


set_option maxRecDepth 8000 in
set_option maxHeartbeats 4000000 in
/-- Claim C7: the scope tables are total over the declared enumeration ranges:
for each of the five services, ScopeDefs has an entry (operation name plus
tags) for every scope constant declared in that service's enumeration block.
The tables are plain top-level constants; no operation in the source writes to
them. -/
theorem scopeDefs_cover_declared_scopes :
    coversRange (ScopeDefs Common) 0 NumCommonScopes = true ∧
    coversRange (ScopeDefs Frontend) NumAdminScopes (NumFrontendScopes - NumAdminScopes) = true ∧
    coversRange (ScopeDefs History) NumCommonScopes (NumHistoryScopes - NumCommonScopes) = true ∧
    coversRange (ScopeDefs Matching) NumCommonScopes (NumMatchingScopes - NumCommonScopes) = true ∧
    coversRange (ScopeDefs Worker) NumCommonScopes (NumWorkerScopes - NumCommonScopes) = true := by
  refine ⟨?_, ?_, ?_, ?_, ?_⟩ <;> decide

/-- Claim C9: the scope-to-operation mapping is not injective: the distinct
Common scopes PersistenceCompleteCrossClusterTaskScope and
PersistenceRangeCompleteCrossClusterTaskScope are both assigned operation name
"GetCrossClusterTasks", the same name as PersistenceGetCrossClusterTasksScope. -/
theorem crossCluster_operation_collision :
    PersistenceCompleteCrossClusterTaskScope ≠ PersistenceGetCrossClusterTasksScope ∧
    PersistenceRangeCompleteCrossClusterTaskScope ≠ PersistenceGetCrossClusterTasksScope ∧
    PersistenceCompleteCrossClusterTaskScope ≠ PersistenceRangeCompleteCrossClusterTaskScope ∧
    (lookupScope (ScopeDefs Common) PersistenceCompleteCrossClusterTaskScope).map
      scopeDefinition.operation = some "GetCrossClusterTasks" ∧
    (lookupScope (ScopeDefs Common) PersistenceRangeCompleteCrossClusterTaskScope).map
      scopeDefinition.operation = some "GetCrossClusterTasks" ∧
    (lookupScope (ScopeDefs Common) PersistenceGetCrossClusterTasksScope).map
      scopeDefinition.operation = some "GetCrossClusterTasks" :=
  ⟨by decide, by decide, by decide, rfl, rfl, rfl⟩

/-- Claim C10: scope values are unique only within a service: the Admin block
starts at NumCommonScopes and the Frontend block continues from NumAdminScopes,
while the History, Matching and Worker blocks each restart at NumCommonScopes;
hence the same integer denotes different scopes in different services and a
ScopeDefs lookup is meaningful only for a (service, index) pair. -/
theorem scope_values_unique_only_per_service :
    AdminDescribeHistoryHostScope = NumCommonScopes ∧
    FrontendRestartWorkflowExecutionScope = NumAdminScopes ∧
    HistoryStartWorkflowExecutionScope = NumCommonScopes ∧
    MatchingPollForDecisionTaskScope = NumCommonScopes ∧
    ReplicatorScope = NumCommonScopes ∧
    HistoryStartWorkflowExecutionScope = MatchingPollForDecisionTaskScope ∧
    lookupScope (ScopeDefs History) HistoryStartWorkflowExecutionScope ≠
      lookupScope (ScopeDefs Matching) MatchingPollForDecisionTaskScope ∧
    lookupScope (ScopeDefs Matching) MatchingPollForDecisionTaskScope ≠
      lookupScope (ScopeDefs Worker) ReplicatorScope :=
  ⟨rfl, rfl, rfl, rfl, rfl, rfl, by decide, by decide⟩


/-- A client is never equal to a retryable wrapper around itself. -/
theorem retryable_ne_inner (c : Client) (p : RetryPolicy) (e : ErrorPredicate) :
    Client.retryable c p e ≠ c := by
  intro h
  have := congrArg sizeOf h
  simp [Client.retryable.sizeOf_spec] at this
  omega

/-- Claim C5: the container lifecycle is one-way with idempotent Start/Stop:
a successful state change is only Initialized to Started (by Start) or Started
to Stopped (by Stop); any other Start or Stop call returns the state unchanged,
side effects included. -/
theorem lifecycle_one_way_idempotent :
    (∀ bean, (newImpl bean).status = DaemonStatus.initialized) ∧
    (∀ w h, h.status ≠ DaemonStatus.initialized → start w h = some h) ∧
    (∀ w h h', start w h = some h' → h' = h ∨
      (h.status = DaemonStatus.initialized ∧ h'.status = DaemonStatus.started ∧
        h'.effects = h.effects ++ startSideEffects)) ∧
    (∀ h, h.status ≠ DaemonStatus.started → stop h = h) ∧
    (∀ h, stop h = h ∨
      (h.status = DaemonStatus.started ∧ (stop h).status = DaemonStatus.stopped ∧
        (stop h).effects = h.effects ++ stopSideEffects)) ∧
    (∀ w w' h h', start w h = some h' → start w' h' = some h') ∧
    (∀ h, stop (stop h) = stop h) ∧
    (∀ w h, h.status = DaemonStatus.stopped → start w h = some h) := by
  refine ⟨fun bean => rfl, ?_, ?_, ?_, ?_, ?_, ?_, ?_⟩
  · intro w h hs
    simp [start, hs]
  · intro w h h' hst
    by_cases hs : h.status = DaemonStatus.initialized
    · right
      cases w with
      | error e => simp [start, hs] at hst
      | ok info =>
          simp [start, hs] at hst
          subst hst
          exact ⟨hs, rfl, rfl⟩
    · left
      simp [start, hs] at hst
      exact hst.symm
  · intro h hs
    simp [stop, hs]
  · intro h
    by_cases hs : h.status = DaemonStatus.started
    · right
      refine ⟨hs, ?_, ?_⟩ <;> simp [stop, hs]
    · left
      simp [stop, hs]
  · intro w w' h h' hst
    by_cases hs : h.status = DaemonStatus.initialized
    · cases w with
      | error e => simp [start, hs] at hst
      | ok info =>
          simp [start, hs] at hst
          subst hst
          simp [start]
    · simp [start, hs] at hst
      subst hst
      simp [start, hs]
  · intro h
    by_cases hs : h.status = DaemonStatus.started
    · simp [stop, hs]
    · simp [stop, hs]
  · intro w h hs
    simp [start, hs]

/-- Witness for C5 at concrete inputs: a freshly constructed container is not
Started, so Stop on it is a no-op. -/
theorem lifecycle_one_way_idempotent_witness :
    (newImpl bean0).status ≠ DaemonStatus.started ∧ stop (newImpl bean0) = newImpl bean0 :=
  ⟨by decide, lifecycle_one_way_idempotent.2.2.2.1 (newImpl bean0) (by decide)⟩

/-- Claim C6: for each of the frontend, matching and history peer-service
clients, the container built by New returns from the client getter the raw
client (the one the Raw getter returns) wrapped in a retry decorator with the
service-specific retry policy and the transient-error predicate, while the Raw
getter returns the bean's undecorated client. -/
theorem clients_retry_wrapped (bean : ClientBean) :
    (newImpl bean).GetFrontendClient =
      Client.retryable ((newImpl bean).GetFrontendRawClient)
        RetryPolicy.frontendServiceRetryPolicy ErrorPredicate.isServiceTransientError ∧
    (newImpl bean).GetMatchingClient =
      Client.retryable ((newImpl bean).GetMatchingRawClient)
        RetryPolicy.matchingServiceRetryPolicy ErrorPredicate.isServiceTransientError ∧
    (newImpl bean).GetHistoryClient =
      Client.retryable ((newImpl bean).GetHistoryRawClient)
        RetryPolicy.historyServiceRetryPolicy ErrorPredicate.isServiceTransientError ∧
    (newImpl bean).GetFrontendRawClient = bean.frontendClient ∧
    (newImpl bean).GetMatchingRawClient = bean.matchingClient ∧
    (newImpl bean).GetHistoryRawClient = bean.historyClient ∧
    (newImpl bean).GetFrontendClient ≠ (newImpl bean).GetFrontendRawClient ∧
    (newImpl bean).GetMatchingClient ≠ (newImpl bean).GetMatchingRawClient ∧
    (newImpl bean).GetHistoryClient ≠ (newImpl bean).GetHistoryRawClient :=
  ⟨rfl, rfl, rfl, rfl, rfl, rfl,
    retryable_ne_inner bean.frontendClient _ _,
    retryable_ne_inner bean.matchingClient _ _,
    retryable_ne_inner bean.historyClient _ _⟩

/-- Claim C8: before Start, GetHostInfo returns the zero value of
membership.HostInfo: the constructor does not set hostInfo, Stop never touches
it, and it changes only inside Start when WhoAmI succeeds, to WhoAmI's result. -/
theorem hostInfo_zero_before_start :
    (∀ bean, (newImpl bean).GetHostInfo = zeroHostInfo) ∧
    (∀ h, (stop h).GetHostInfo = h.GetHostInfo) ∧
    (∀ w h h', start w h = some h' →
      h'.GetHostInfo = h.GetHostInfo ∨
      ∃ info, w = Except.ok info ∧ h'.GetHostInfo = info) := by
  refine ⟨fun bean => rfl, ?_, ?_⟩
  · intro h
    by_cases hs : h.status = DaemonStatus.started <;>
      simp [stop, hs, Impl.GetHostInfo]
  · intro w h h' hst
    by_cases hs : h.status = DaemonStatus.initialized
    · cases w with
      | error e => simp [start, hs] at hst
      | ok info =>
          right
          refine ⟨info, rfl, ?_⟩
          simp [start, hs] at hst
          subst hst
          rfl
    · left
      simp [start, hs] at hst
      subst hst
      rfl

/-- Witness for C8: Start of the fresh container with a successful WhoAmI
answer assigns hostInfo from that answer. -/
theorem hostInfo_zero_before_start_witness :
    impl1.GetHostInfo = (newImpl bean0).GetHostInfo ∨
    ∃ info, (Except.ok { addr := "h1" } : Except String HostInfo) = Except.ok info ∧
      impl1.GetHostInfo = info :=
  hostInfo_zero_before_start.2.2 (Except.ok { addr := "h1" }) (newImpl bean0) impl1 (by decide)

/-- advanceFrom never goes below its starting level when every pending ID is
at least the starting level and the list is ascending. -/
theorem advanceFrom_mono (completed : List Nat) :
    ∀ (pending : List Nat) (ack : Nat), pending.Sorted (· ≤ ·) →
      (∀ t ∈ pending, ack ≤ t) → ack ≤ advanceFrom completed ack pending := by
  intro pending
  induction pending with
  | nil => intro ack _ _; simp [advanceFrom]
  | cons t rest ih =>
      intro ack hsort hub
      by_cases hc : t ∈ completed
      · have ht : ack ≤ t := hub t (by simp)
        have hrest : ∀ u ∈ rest, t ≤ u := (List.sorted_cons.mp hsort).1
        have := ih t (List.sorted_cons.mp hsort).2 hrest
        simp only [advanceFrom, hc, if_pos]
        omega
      · simp [advanceFrom, hc]

/-- advanceFrom stays strictly below every pending ID that is not completed. -/
theorem advanceFrom_lt_uncompleted (completed : List Nat) :
    ∀ (pending : List Nat) (ack u : Nat), pending.Sorted (· < ·) →
      (∀ t ∈ pending, ack < t) → u ∈ pending → u ∉ completed →
      advanceFrom completed ack pending < u := by
  intro pending
  induction pending with
  | nil => intro ack u _ _ hu; simp at hu
  | cons t rest ih =>
      intro ack u hsort hub hu hnc
      by_cases hc : t ∈ completed
      · have hne : u ≠ t := fun h => hnc (h ▸ hc)
        have hur : u ∈ rest := by
          rcases List.mem_cons.mp hu with h | h
          · exact absurd h hne
          · exact h
        have hrest : ∀ v ∈ rest, t < v := (List.sorted_cons.mp hsort).1
        simp only [advanceFrom, hc, if_pos]
        exact ih t u (List.sorted_cons.mp hsort).2 hrest hur hnc
      · have : ack < u := hub u hu
        simp only [advanceFrom, hc, if_neg, ite_false]
        simpa [hc] using this

/-- advanceFrom reaches any pending ID all of whose predecessors in the queue
are completed. -/
theorem advanceFrom_reach (completed : List Nat) :
    ∀ (pending : List Nat) (ack u : Nat), pending.Sorted (· < ·) →
      u ∈ pending → (∀ v ∈ pending, v ≤ u → v ∈ completed) →
      u ≤ advanceFrom completed ack pending := by
  intro pending
  induction pending with
  | nil => intro ack u _ hu; simp at hu
  | cons t rest ih =>
      intro ack u hsort hu hcomp
      have hrest : ∀ v ∈ rest, t < v := (List.sorted_cons.mp hsort).1
      rcases List.mem_cons.mp hu with h | h
      · subst h
        have hc : u ∈ completed := hcomp u (by simp) le_rfl
        simp only [advanceFrom, hc, if_pos]
        exact advanceFrom_mono completed rest u
          ((List.sorted_cons.mp hsort).2.le_of_lt)
          (fun v hv => (hrest v hv).le)
      · have ht : t < u := hrest u h
        have hc : t ∈ completed := hcomp t (by simp) ht.le
        simp only [advanceFrom, hc, if_pos]
        exact ih t u (List.sorted_cons.mp hsort).2 h
          (fun v hv hvu => hcomp v (by simp [hv]) hvu)

/-- updateAckLevel preserves well-formedness. -/
theorem updateAckLevel_wf (s : AckState) (h : s.wf) : (updateAckLevel s).wf := by
  obtain ⟨hsort, hub⟩ := h
  constructor
  · exact hsort.filter _
  · intro t ht
    have := List.mem_filter.mp ht
    simpa using this.2

/-- completeTask preserves well-formedness. -/
theorem completeTask_wf (s : AckState) (t : Nat) (h : s.wf) : (completeTask s t).wf := by
  obtain ⟨hsort, hub⟩ := h
  exact updateAckLevel_wf _ ⟨hsort, hub⟩

/-- completeTask never lowers the ack level. -/
theorem completeTask_mono (s : AckState) (t : Nat) (h : s.wf) :
    s.ackLevel ≤ (completeTask s t).ackLevel := by
  obtain ⟨hsort, hub⟩ := h
  exact advanceFrom_mono _ s.pending s.ackLevel
    (hsort.le_of_lt) (fun u hu => (hub u hu).le)

/-- Along any sequence of completion callbacks the ack level is monotonically
non-decreasing. -/
theorem runCompletions_mono (ts : List Nat) :
    ∀ s : AckState, s.wf → s.ackLevel ≤ (runCompletions s ts).ackLevel := by
  induction ts with
  | nil => intro s _; simp [runCompletions]
  | cons t rest ih =>
      intro s hwf
      have h1 := completeTask_mono s t hwf
      have h2 := ih (completeTask s t) (completeTask_wf s t hwf)
      simpa [runCompletions] using le_trans h1 h2

/-- Claim C1: for a well-formed processing queue the ack level is monotonically
non-decreasing over any sequence of completions, stays strictly below every
uncompleted pending task, advances at least to any pending task whose
predecessors in the filter are all completed, and in the two-task scenario with
IDs 5 and 6 completing 6 first leaves the level at 4 until 5 completes, after
which it reaches 6. -/
theorem ackLevel_monotone_no_gaps :
    (∀ (s : AckState) (ts : List Nat), s.wf →
        s.ackLevel ≤ (runCompletions s ts).ackLevel) ∧
    (∀ (s : AckState) (u : Nat), s.wf → u ∈ s.pending → u ∉ s.completed →
        (updateAckLevel s).ackLevel < u) ∧
    (∀ (s : AckState) (u : Nat), s.wf → u ∈ s.pending →
        (∀ v ∈ s.pending, v ≤ u → v ∈ s.completed) →
        u ≤ (updateAckLevel s).ackLevel) ∧
    (runCompletions { ackLevel := 4, pending := [5, 6], completed := [] } [6]).ackLevel = 4 ∧
    (runCompletions { ackLevel := 4, pending := [5, 6], completed := [] } [6, 5]).ackLevel = 6 := by
  refine ⟨fun s ts h => runCompletions_mono ts s h, ?_, ?_, by decide, by decide⟩
  · intro s u hwf hu hnc
    exact advanceFrom_lt_uncompleted s.completed s.pending s.ackLevel u hwf.1 hwf.2 hu hnc
  · intro s u hwf hu hcomp
    exact advanceFrom_reach s.completed s.pending s.ackLevel u hwf.1 hu hcomp

/-- Witness for C1 at a concrete queue: with ack level 4, pending IDs 5 and 6
and nothing completed, a run of completions never lowers the level. -/
theorem ackLevel_monotone_no_gaps_witness :
    AckState.wf { ackLevel := 4, pending := [5, 6], completed := [] } ∧
    (4 : Nat) ≤ (runCompletions { ackLevel := 4, pending := [5, 6], completed := [] } [6, 5]).ackLevel :=
  ⟨by constructor <;> decide,
    ackLevel_monotone_no_gaps.1 { ackLevel := 4, pending := [5, 6], completed := [] } [6, 5]
      (by constructor <;> decide)⟩

/-- Exact shape of the failing-item run: with enough fuel, the re-submissions
carry the consecutive attempt numbers up to the ceiling. -/
theorem failingRun_eq (maxAttempts : Nat) :
    ∀ (fuel attempt : Nat), maxAttempts ≤ attempt + fuel →
      failingRun maxAttempts attempt fuel =
        (List.range (maxAttempts - attempt)).map (fun i => attempt + i + 1) := by
  intro fuel
  induction fuel with
  | zero =>
      intro attempt h
      have : maxAttempts - attempt = 0 := by omega
      simp [failingRun, this]
  | succ fuel ih =>
      intro attempt h
      by_cases hlt : attempt < maxAttempts
      · have hrec := ih (attempt + 1) (by omega)
        have hk : maxAttempts - attempt = (maxAttempts - (attempt + 1)) + 1 := by omega
        simp only [failingRun, handleFailure, hlt, and_true, if_pos, true_and, hrec, hk,
          List.range_succ_eq_map, List.map_cons, List.map_map]
        congr 1
        apply List.map_congr_left
        intro i _
        simp only [Function.comp_apply]
        omega
      · have : maxAttempts - attempt = 0 := by omega
        simp [failingRun, handleFailure, hlt, this]

/-- Dedup count lemma: after read-side dedup an ID present in the list and not
already seen occurs exactly once; an already-seen ID occurs zero times. -/
theorem dedupRead_countP (t : Nat) :
    ∀ (l : List DLQEntry) (seen : List Nat),
      (dedupRead l seen).countP (fun e => e.taskID == t) =
        if t ∈ seen then 0 else if t ∈ l.map DLQEntry.taskID then 1 else 0 := by
  intro l
  induction l with
  | nil => intro seen; simp [dedupRead]
  | cons e rest ih =>
      intro seen
      by_cases hseen : e.taskID ∈ seen
      · rw [dedupRead, if_pos hseen, ih]
        by_cases ht : t ∈ seen
        · simp [ht]
        · have hne : ¬ t = e.taskID := fun hh => ht (hh ▸ hseen)
          simp [ht, List.mem_cons, hne]
      · rw [dedupRead, if_neg hseen]
        by_cases hte : e.taskID = t
        · subst hte
          rw [List.countP_cons_of_pos _ _ (by simp)]
          rw [ih]
          simp [hseen]
        · have hne : ¬ t = e.taskID := fun hh => hte hh.symm
          rw [List.countP_cons_of_neg _ _ (by simp [hte])]
          rw [ih]
          by_cases ht : t ∈ seen
          · simp [ht, List.mem_cons, hne]
          · simp [ht, List.mem_cons, hne]

/-- Claim C2: an item submitted at attempt 0 that always fails retryably is
re-submitted with attempt+1 exactly maxAttempts times, with a nondecreasing
backoff delay; a non-retryable error or an exhausted ceiling is reported
failed, and after the failed item is routed to the DLQ it occurs exactly once
in a deduplicated read. -/
theorem retry_until_dlq :
    (∀ maxAttempts : Nat, failingRun maxAttempts 0 maxAttempts =
        (List.range maxAttempts).map (fun i => i + 1)) ∧
    (∀ maxAttempts : Nat, (failingRun maxAttempts 0 maxAttempts).length = maxAttempts) ∧
    (∀ base cap i j : Nat, i ≤ j → backoffDelay base cap i ≤ backoffDelay base cap j) ∧
    (∀ attempt maxAttempts : Nat,
        handleFailure false attempt maxAttempts = RetryDecision.reportFailed) ∧
    (∀ maxAttempts : Nat,
        handleFailure true maxAttempts maxAttempts = RetryDecision.reportFailed) ∧
    (∀ (dlq : List DLQEntry) (e : DLQEntry),
        (dedupRead (enqueueDLQ dlq e) []).countP (fun x => x.taskID == e.taskID) = 1) := by
  refine ⟨?_, ?_, ?_, ?_, ?_, ?_⟩
  · intro maxAttempts
    have := failingRun_eq maxAttempts maxAttempts 0 (by omega)
    simpa using this
  · intro maxAttempts
    have := failingRun_eq maxAttempts maxAttempts 0 (by omega)
    simp [this]
  · intro base cap i j hij
    exact min_le_min (Nat.mul_le_mul_left base (Nat.pow_le_pow_right (by omega) hij)) le_rfl
  · intro attempt maxAttempts
    simp [handleFailure]
  · intro maxAttempts
    simp [handleFailure]
  · intro dlq e
    rw [dedupRead_countP]
    simp [enqueueDLQ]

/-- Witness for C2 at concrete inputs: with base delay 2 capped at 100, the
backoff at attempt 1 is at most the backoff at attempt 3. -/
theorem retry_until_dlq_witness :
    (1 : Nat) ≤ 3 ∧ backoffDelay 2 100 1 ≤ backoffDelay 2 100 3 :=
  ⟨by decide, retry_until_dlq.2.2.1 2 100 1 3 (by decide)⟩

/-- A filter is recovered from its two split parts. -/
theorem inter_union_sdiff_eq (f s : Finset Nat) : f ∩ s ∪ f \ s = f := by
  ext x
  simp only [Finset.mem_union, Finset.mem_inter, Finset.mem_sdiff]
  tauto

/-- Splitting preserves the partition invariant of the live queue filters:
replacing one filter by its two split parts keeps the filters pairwise
disjoint with the same union. -/
theorem split_preserves_partition (l1 l2 : List (Finset Nat)) (f s u : Finset Nat)
    (h : filtersPartition (l1 ++ f :: l2) u) :
    filtersPartition (l1 ++ (f ∩ s) :: (f \ s) :: l2) u := by
  obtain ⟨hp, hu⟩ := h
  constructor
  · rw [List.pairwise_append] at hp ⊢
    obtain ⟨hp1, hp2, hp12⟩ := hp
    rw [List.pairwise_cons] at hp2
    obtain ⟨hf, hl2⟩ := hp2
    refine ⟨hp1, ?_, ?_⟩
    · rw [List.pairwise_cons]
      constructor
      · intro b hb
        rcases List.mem_cons.mp hb with rfl | hb
        · exact (Finset.disjoint_sdiff_inter f s).symm
        · exact (hf b hb).mono_left Finset.inter_subset_left
      · rw [List.pairwise_cons]
        exact ⟨fun b hb => (hf b hb).mono_left Finset.sdiff_subset, hl2⟩
    · intro a ha b hb
      rcases List.mem_cons.mp hb with rfl | hb
      · exact (hp12 a ha f (by simp)).mono_right Finset.inter_subset_left
      rcases List.mem_cons.mp hb with rfl | hb
      · exact (hp12 a ha f (by simp)).mono_right Finset.sdiff_subset
      · exact hp12 a ha b (by simp [hb])
  · rw [List.foldr_append] at hu ⊢
    rw [List.foldr_cons] at hu
    rw [List.foldr_cons, List.foldr_cons, ← Finset.union_assoc, inter_union_sdiff_eq]
    exact hu

/-- Claim C3: a split produces two queues whose filters are disjoint and whose
union is the original filter, so splitting a live queue preserves the
partition of the universal domain set; merging the two split parts gives back
exactly the original queue, and a merge succeeds exactly when the two ack
levels coincide. -/
theorem split_partition_merge_inverse :
    (∀ (q : PQState) (s : Finset Nat),
        (splitQueue q s).1.domainFilter ∪ (splitQueue q s).2.domainFilter = q.domainFilter) ∧
    (∀ (q : PQState) (s : Finset Nat),
        Disjoint (splitQueue q s).1.domainFilter (splitQueue q s).2.domainFilter) ∧
    (∀ (l1 l2 : List (Finset Nat)) (f s u : Finset Nat),
        filtersPartition (l1 ++ f :: l2) u →
        filtersPartition (l1 ++ (f ∩ s) :: (f \ s) :: l2) u) ∧
    (∀ (q : PQState) (s : Finset Nat),
        mergeQueues (splitQueue q s).1 (splitQueue q s).2 = some q) ∧
    (∀ q1 q2 : PQState, (mergeQueues q1 q2).isSome ↔ q1.ackLevel = q2.ackLevel) := by
  refine ⟨?_, ?_, split_preserves_partition, ?_, ?_⟩
  · intro q s
    simp [splitQueue, inter_union_sdiff_eq]
  · intro q s
    exact (Finset.disjoint_sdiff_inter q.domainFilter s).symm
  · intro q s
    simp [splitQueue, mergeQueues, inter_union_sdiff_eq]
  · intro q1 q2
    by_cases h : q1.ackLevel = q2.ackLevel <;> simp [mergeQueues, h]

/-- Witness for C3 at concrete queues: splitting the filter containing domains
1 and 2 by isolating domain 1, next to a live queue owning domain 3, keeps the
partition of the universal set containing domains 1 to 3. -/
theorem split_partition_merge_inverse_witness :
    filtersPartition [({1, 2} : Finset Nat), {3}] {1, 2, 3} ∧
    filtersPartition [({1, 2} : Finset Nat) ∩ {1}, {1, 2} \ {1}, {3}] {1, 2, 3} := by
  have h0 : filtersPartition [({1, 2} : Finset Nat), {3}] {1, 2, 3} := by
    constructor
    · decide
    · decide
  exact ⟨h0, split_partition_merge_inverse.2.2.1 [] [{3}] {1, 2} {1} {1, 2, 3} h0⟩

/-- The rangeID never decreases along a run of acquire attempts. -/
theorem acquireTrace_rangeID_mono :
    ∀ (ops : List (String × Nat)) (store : ShardRecord) (r : ShardRecord),
      r ∈ acquireTrace store ops → store.rangeID ≤ r.rangeID := by
  intro ops
  induction ops with
  | nil =>
      intro store r hr
      simp [acquireTrace] at hr
      simp [hr]
  | cons op rest ih =>
      intro store r hr
      rcases List.mem_cons.mp hr with rfl | hr
      · exact le_rfl
      · have := ih (applyAcquire store op) r hr
        unfold applyAcquire at this
        unfold acquireShard at this
        by_cases hc : op.2 = store.rangeID
        · simp [hc] at this
          omega
        · simp [hc] at this
          omega

/-- The starting record is the head of its own trace. -/
theorem acquireTrace_head_mem (store : ShardRecord) (ops : List (String × Nat)) :
    store ∈ acquireTrace store ops := by
  cases ops with
  | nil => simp [acquireTrace]
  | cons op rest => simp [acquireTrace]

/-- Two records with the same rangeID in one run are the same record: at most
one live owner exists for a given rangeID. -/
theorem acquireTrace_unique_owner :
    ∀ (ops : List (String × Nat)) (store : ShardRecord) (r1 r2 : ShardRecord),
      r1 ∈ acquireTrace store ops → r2 ∈ acquireTrace store ops →
      r1.rangeID = r2.rangeID → r1 = r2 := by
  intro ops
  induction ops with
  | nil =>
      intro store r1 r2 h1 h2 _
      simp [acquireTrace] at h1 h2
      rw [h1, h2]
  | cons op rest ih =>
      intro store r1 r2 h1 h2 heq
      have hsucc : ∀ r : ShardRecord, acquireShard store op.1 op.2 = some r →
          r.rangeID = store.rangeID + 1 := by
        intro r hr
        unfold acquireShard at hr
        by_cases hc : op.2 = store.rangeID
        · simp [hc] at hr
          rw [← hr]
        · simp [hc] at hr
      rw [acquireTrace] at h1 h2
      rcases List.mem_cons.mp h1 with h1e | h1t
      · rcases List.mem_cons.mp h2 with h2e | h2t
        · rw [h1e, h2e]
        · cases hacq : acquireShard store op.1 op.2 with
          | none =>
              have happ : applyAcquire store op = store := by
                unfold applyAcquire
                rw [hacq]
              rw [happ] at h2t
              refine ih store r1 r2 ?_ h2t heq
              rw [h1e]
              exact acquireTrace_head_mem store rest
          | some recn =>
              have happ : applyAcquire store op = recn := by
                unfold applyAcquire
                rw [hacq]
              rw [happ] at h2t
              have hmono := acquireTrace_rangeID_mono rest recn r2 h2t
              have hs := hsucc recn hacq
              have h1r : r1.rangeID = store.rangeID := by rw [h1e]
              exfalso
              omega
      · rcases List.mem_cons.mp h2 with h2e | h2t
        · cases hacq : acquireShard store op.1 op.2 with
          | none =>
              have happ : applyAcquire store op = store := by
                unfold applyAcquire
                rw [hacq]
              rw [happ] at h1t
              refine ih store r1 r2 h1t ?_ heq
              rw [h2e]
              exact acquireTrace_head_mem store rest
          | some recn =>
              have happ : applyAcquire store op = recn := by
                unfold applyAcquire
                rw [hacq]
              rw [happ] at h1t
              have hmono := acquireTrace_rangeID_mono rest recn r1 h1t
              have hs := hsucc recn hacq
              have h2r : r2.rangeID = store.rangeID := by rw [h2e]
              exfalso
              omega
        · exact ih (applyAcquire store op) r1 r2 h1t h2t heq

/-- Claim C4: acquiring a shard with a stale fencing token fails; a successful
acquire with the latest token produces the next rangeID and the new owner, and
a conditional write still carrying the old token is rejected afterwards; and
along any run of acquire attempts at most one record, hence at most one live
owner, exists for a given rangeID. -/
theorem shard_fencing :
    (∀ (store : ShardRecord) (host : String) (expected : Nat),
        expected ≠ store.rangeID → acquireShard store host expected = none) ∧
    (∀ (store : ShardRecord) (hostB : String) (r : ShardRecord),
        acquireShard store hostB store.rangeID = some r →
        conditionalWriteOK r store.rangeID = false ∧
        r.rangeID = store.rangeID + 1 ∧ r.owner = hostB) ∧
    (∀ (ops : List (String × Nat)) (store : ShardRecord) (r1 r2 : ShardRecord),
        r1 ∈ acquireTrace store ops → r2 ∈ acquireTrace store ops →
        r1.rangeID = r2.rangeID → r1 = r2) := by
  refine ⟨?_, ?_, acquireTrace_unique_owner⟩
  · intro store host expected hne
    simp [acquireShard, hne]
  · intro store hostB r hacq
    simp [acquireShard] at hacq
    rw [← hacq]
    refine ⟨?_, rfl, rfl⟩
    simp [conditionalWriteOK]

/-- Witness for C4 at a concrete record: host B acquiring the shard owned by A
at rangeID 5 with the stale token 4 fails. -/
theorem shard_fencing_witness :
    (4 : Nat) ≠ ({ owner := "A", rangeID := 5 } : ShardRecord).rangeID ∧
    acquireShard { owner := "A", rangeID := 5 } "B" 4 = none :=
  ⟨by decide, shard_fencing.1 { owner := "A", rangeID := 5 } "B" 4 (by decide)⟩

end Cadence
